import Mathlib

/-!
Verification development for the Ultra SIEM rust-core detection and response
pipeline.  The definitions below are a shallow embedding of the Rust sources
under `rust-core/src/` (`advanced_threat_detection.rs`, `incident_response.rs`,
`supervisor.rs`, `optimized_pattern_matcher.rs`).

Modelling conventions:
* `u64` values become `Nat`; subtractions that can underflow in Rust are made
  explicit with `u64sub` (wrapping subtraction modulo `2 ^ 64`, the release-mode
  behaviour).
* `f32`/`f64` values become `ℚ`.  Arithmetic is expressed with the
  kernel-computable operations `qAdd`, `qSub`, `qMul`, `qDiv`, `qMin`, which are
  proved below to agree with the `ℚ` field operations.
* `HashMap`/`DashMap` become association lists (`alGet` / `alInsert`);
  iteration order is insertion order.
* Wall-clock reads (`SystemTime::now`, `Instant::now`) become explicit `now`
  parameters; `Uuid::new_v4` identifiers, which no embedded function ever
  inspects, become counter-derived or empty strings.
* The external `regex` crate, the missing `MLAnomalyEngine` (imported by
  `advanced_threat_detection.rs` but absent from the sources) and the missing
  `QuantumDetector` scan interface are abstracted as explicit oracle
  parameters, so every theorem about the embedded engines quantifies over them
  unless stated otherwise.
-/

set_option maxHeartbeats 1000000

set_option synthInstance.maxHeartbeats 400000

namespace UltraSIEM

/-! ### Kernel-computable rational arithmetic (model of `f32`/`f64`) -/

/-- Addition on `ℚ` by the textbook formula; agrees with `+` (see `qAdd_eq`). -/
def qAdd (a b : ℚ) : ℚ := mkRat (a.num * (b.den : Int) + b.num * (a.den : Int)) (a.den * b.den)

/-- Multiplication on `ℚ`; agrees with `*` (see `qMul_eq`). -/
def qMul (a b : ℚ) : ℚ := mkRat (a.num * b.num) (a.den * b.den)

/-- Subtraction on `ℚ`. -/
def qSub (a b : ℚ) : ℚ := qAdd a (mkRat (-b.num) b.den)

/-- Division on `ℚ`. -/
def qDiv (a b : ℚ) : ℚ :=
  if b.num < 0 then mkRat (-(a.num * (b.den : Int))) (a.den * b.num.natAbs)
  else mkRat (a.num * (b.den : Int)) (a.den * b.num.natAbs)

/-- Rust `f32::min`. -/
def qMin (a b : ℚ) : ℚ := if a ≤ b then a else b

/-- Rust `f32::max`. -/
def qMax (a b : ℚ) : ℚ := if a ≤ b then b else a

theorem qAdd_eq (a b : ℚ) : qAdd a b = a + b := by
  rw [Rat.add_def]
  simp [qAdd, Rat.normalize_eq_mkRat]

theorem qMul_eq (a b : ℚ) : qMul a b = a * b := by
  rw [Rat.mul_def]
  simp [qMul, Rat.normalize_eq_mkRat]

/-! ### Machine-integer subtraction -/

/-- Wrapping subtraction on `u64` (Rust release-mode semantics).  All the
embedded code applies it with `b ≤ a < 2 ^ 64`, where it agrees with `Nat`
subtraction (`u64sub_eq_sub`). -/
def u64sub (a b : Nat) : Nat := (a + (2 ^ 64 - b % 2 ^ 64)) % 2 ^ 64

theorem u64sub_eq_sub {a b : Nat} (hba : b ≤ a) (ha : a < 2 ^ 64) :
    u64sub a b = a - b := by
  have hb : b % 2 ^ 64 = b := Nat.mod_eq_of_lt (lt_of_le_of_lt hba ha)
  unfold u64sub
  rw [hb]
  omega

/-! ### Association lists (model of `HashMap` / `DashMap`) -/

/-- Lookup in an association list. -/
def alGet {κ α : Type} [DecidableEq κ] : List (κ × α) → κ → Option α
  | [], _ => none
  | (k', v) :: t, k => if k' = k then some v else alGet t k

/-- Insert-or-replace in an association list (keeps first-insertion order,
matching the deterministic iteration the theorems rely on). -/
def alInsert {κ α : Type} [DecidableEq κ] : List (κ × α) → κ → α → List (κ × α)
  | [], k, v => [(k, v)]
  | (k', v') :: t, k, v => if k' = k then (k, v) :: t else (k', v') :: alInsert t k v

theorem alGet_alInsert_self {κ α : Type} [DecidableEq κ] (m : List (κ × α)) (k : κ) (v : α) :
    alGet (alInsert m k v) k = some v := by
  induction m with
  | nil => simp [alGet, alInsert]
  | cons h t ih =>
    by_cases hk : h.1 = k
    · simp [alInsert, alGet, hk]
    · simp [alInsert, alGet, hk, ih]

/-! ### String helpers (Rust `str` operations on character lists) -/

/-- Substring test on character lists (Rust `str::contains`). -/
def listInfix (p : List Char) : List Char → Bool
  | [] => p.isEmpty
  | c :: t => p.isPrefixOf (c :: t) || listInfix p t

/-- Rust `str::contains` for a literal needle. -/
def strContains (s needle : String) : Bool := listInfix needle.data s.data

/-- Rust `str::starts_with`. -/
def strStarts (s needle : String) : Bool := needle.data.isPrefixOf s.data

/-- Rust `str::ends_with`. -/
def strEnds (s needle : String) : Bool := needle.data.reverse.isPrefixOf s.data.reverse

/-- Rust `str::to_lowercase` (ASCII-faithful). -/
def strToLower (s : String) : String := String.mk (s.data.map Char.toLower)

/-! ### Shared data model (`threat_detection.rs`, `advanced_threat_detection.rs`) -/

/-- `ThreatSeverity` from `threat_detection.rs`. -/
inductive ThreatSeverity where
  | low
  | medium
  | high
  | critical
  deriving DecidableEq

/-- `ThreatCategory` from `threat_detection.rs`. -/
inductive ThreatCategory where
  | malware
  | network
  | authentication
  | compliance
  | sqlInjection
  | xss
  | bruteForce
  | insiderThreat
  | apt
  | ddos
  | dataExfiltration
  | privilegeEscalation
  | lateralMovement
  | persistence
  | evasion
  | other
  deriving DecidableEq

/-- The `Display` implementation for `ThreatCategory`. -/
def categoryToString : ThreatCategory → String
  | .malware => "Malware"
  | .network => "Network"
  | .authentication => "Authentication"
  | .compliance => "Compliance"
  | .sqlInjection => "SQLInjection"
  | .xss => "XSS"
  | .bruteForce => "BruteForce"
  | .insiderThreat => "InsiderThreat"
  | .apt => "APT"
  | .ddos => "DDoS"
  | .dataExfiltration => "DataExfiltration"
  | .privilegeEscalation => "PrivilegeEscalation"
  | .lateralMovement => "LateralMovement"
  | .persistence => "Persistence"
  | .evasion => "Evasion"
  | .other => "Other"

/-- `SignaturePattern` from `threat_detection.rs`. -/
structure SignaturePattern where
  id : String
  name : String
  pattern : String
  category : ThreatCategory
  severity : ThreatSeverity
  description : String
  enabled : Bool
  confidence : ℚ
  deriving DecidableEq

/-- `SignatureMatch` from `advanced_threat_detection.rs`. -/
structure SignatureMatch where
  signature_id : String
  signature_name : String
  matched_text : String
  confidence : ℚ
  timestamp : Nat
  deriving DecidableEq

/-- `BehavioralContext` from `advanced_threat_detection.rs`. -/
structure BehavioralContext where
  user_id : String
  source_ip : String
  destination_ip : String
  action : String
  timestamp : Nat
  frequency : Nat
  baseline_deviation : ℚ
  risk_score : ℚ
  session_id : String
  user_agent : String
  geo_location : Option String
  time_of_day : Nat
  day_of_week : Nat
  deriving DecidableEq

/-- `CorrelationEvent` from `advanced_threat_detection.rs`. -/
structure CorrelationEvent where
  id : String
  timestamp : Nat
  event_type : String
  source : String
  target : String
  severity : ThreatSeverity
  confidence : ℚ
  metadata : List (String × String)
  deriving DecidableEq

/-- `AdvancedThreatResult` from `advanced_threat_detection.rs`. -/
structure AdvancedThreatResult where
  threat_id : String
  timestamp : Nat
  severity : ThreatSeverity
  category : ThreatCategory
  confidence : ℚ
  detection_method : String
  source_ip : String
  destination_ip : String
  user_id : String
  description : String
  iocs : List String
  signatures : List String
  behavioral_context : Option BehavioralContext
  correlation_events : List CorrelationEvent
  false_positive_probability : ℚ
  gpu_processing_time_ms : ℚ
  details : List (String × String)
  deriving DecidableEq

/-! ### Incident response data model (`incident_response.rs`) -/

/-- `IncidentSeverity`. -/
inductive IncidentSeverity where
  | low
  | medium
  | high
  | critical
  | emergency
  deriving DecidableEq

/-- The `Display` implementation for `IncidentSeverity`. -/
def incidentSeverityToString : IncidentSeverity → String
  | .low => "Low"
  | .medium => "Medium"
  | .high => "High"
  | .critical => "Critical"
  | .emergency => "Emergency"

/-- `IncidentStatus` (the Rust variant `Open` is spelled `open_` because `open`
is a Lean keyword). -/
inductive IncidentStatus where
  | open_
  | investigating
  | containing
  | resolved
  | closed
  | falsePositive
  deriving DecidableEq

/-- `ResponseAction`. -/
inductive ResponseAction where
  | blockIP (ip : String) (duration_seconds : Nat)
  | disableAccount (user_id : String) (reason : String)
  | quarantineFile (file_path : String) (hash : String)
  | killProcess (process_id : Nat) (reason : String)
  | restartService (service_name : String)
  | sendEmail (to_ : List String) (subject : String) (body : String)
  | webhookNotification (url : String) (payload : String)
  | grafanaAlert (dashboard_id : String) (panel_id : String)
  | customScript (script_path : String) (args : List String)
  | logOnly (message : String)
  deriving DecidableEq

/-- `ResponseActionResult`. -/
structure ResponseActionResult where
  action_id : String
  action_type : ResponseAction
  success : Bool
  error_message : Option String
  execution_time_ms : Nat
  timestamp : Nat
  deriving DecidableEq

/-- `Incident` (chrono timestamps are modelled as seconds since the epoch). -/
structure Incident where
  id : String
  timestamp : Nat
  severity : IncidentSeverity
  status : IncidentStatus
  title : String
  description : String
  source_ip : String
  destination_ip : String
  user_id : String
  threat_id : String
  threat_result : AdvancedThreatResult
  response_actions : List ResponseActionResult
  assigned_to : Option String
  notes : List String
  tags : List String
  created_at : Nat
  updated_at : Nat
  resolved_at : Option Nat
  false_positive : Bool
  escalation_level : Nat
  sla_deadline : Option Nat
  deriving DecidableEq

/-- `ResponseCondition`. -/
structure ResponseCondition where
  field : String
  operator : String
  value : String
  case_sensitive : Bool
  deriving DecidableEq

/-- `ResponseRule`. -/
structure ResponseRule where
  id : String
  name : String
  description : String
  enabled : Bool
  conditions : List ResponseCondition
  actions : List ResponseAction
  priority : Nat
  cooldown_seconds : Nat
  last_triggered : Option Nat
  deriving DecidableEq

/-- The two `AlertConfig` fields the embedded operations consult; the remaining
fields (SMTP endpoints, API keys, ...) do not influence any embedded function. -/
structure AlertConfig where
  email_enabled : Bool
  grafana_enabled : Bool
  deriving DecidableEq

/-- Mutable state of `IncidentResponseEngine`. -/
structure IRState where
  config : AlertConfig
  response_rules : List (String × ResponseRule)
  incidents : List (String × Incident)
  blocked_ips : List (String × Nat)
  disabled_accounts : List (String × Nat)
  performance_metrics : List (String × ℚ)
  incident_counter : Nat
  deriving DecidableEq

/-- The threat-to-incident severity conversion in `create_incident_from_threat`. -/
def incidentSeverityOfThreat : ThreatSeverity → IncidentSeverity
  | .low => .low
  | .medium => .medium
  | .high => .high
  | .critical => .critical

/-- The escalation-level table in `create_incident_from_threat`. -/
def escalationLevel : IncidentSeverity → Nat
  | .low => 1
  | .medium => 2
  | .high => 3
  | .critical => 4
  | .emergency => 5

/-- The SLA-offset table in `create_incident_from_threat`, in seconds
(`chrono::Duration::hours` / `minutes` converted to seconds). -/
def slaOffsetSeconds : IncidentSeverity → Nat
  | .low => 24 * 3600
  | .medium => 8 * 3600
  | .high => 2 * 3600
  | .critical => 30 * 60
  | .emergency => 15 * 60

/-- `IncidentResponseEngine::create_incident_from_threat`.  `Uuid::new_v4` is
modelled as an identifier derived from the (also incremented) incident counter;
no embedded operation inspects the identifier's text. -/
def createIncidentFromThreat (now : Nat) (st : IRState) (threat : AdvancedThreatResult) :
    IRState × Incident :=
  let severity := incidentSeverityOfThreat threat.severity
  let counter := st.incident_counter + 1
  ({ st with incident_counter := counter },
   { id := "uuid-" ++ toString counter
     timestamp := now
     severity := severity
     status := .open_
     title := categoryToString threat.category ++ " - " ++ threat.description
     description := threat.description
     source_ip := threat.source_ip
     destination_ip := threat.destination_ip
     user_id := threat.user_id
     threat_id := threat.threat_id
     threat_result := threat
     response_actions := []
     assigned_to := none
     notes := []
     tags := []
     created_at := now
     updated_at := now
     resolved_at := none
     false_positive := false
     escalation_level := escalationLevel severity
     sla_deadline := some (now + slaOffsetSeconds severity) })

/-- Model of the Rust float `Display` used when a condition reads the
`confidence` field: exact for integral values, `num/den` otherwise.  No theorem
in this file depends on its output for non-integral values. -/
def ratToString (q : ℚ) : String :=
  if q.den = 1 then toString q.num else toString q.num ++ "/" ++ toString q.den

/-- Digit-list parser used by `parseRat`. -/
def digitsToNat : List Char → Option Nat
  | [] => none
  | l =>
    l.foldl (fun acc c => acc.bind fun n => if c.isDigit then some (n * 10 + (c.toNat - 48)) else none)
      (some 0)

/-- Model of `str::parse::<f64>` as used by the `greater_than` / `less_than`
operators: optional sign, decimal digits, at most one point.  Non-numeric
strings (such as severity names) fail to parse, exactly as in Rust. -/
def parseRat (s : String) : Option ℚ :=
  let core : List Char → Option ℚ := fun l =>
    match l.findIdx? (· = '.') with
    | none => (digitsToNat l).map fun n => mkRat n 1
    | some i =>
      let intPart := l.take i
      let fracPart := l.drop (i + 1)
      match digitsToNat fracPart with
      | none => none
      | some f =>
        let ip : Option Nat := if intPart.isEmpty then some 0 else digitsToNat intPart
        ip.map fun n => mkRat (n * 10 ^ fracPart.length + f) (10 ^ fracPart.length)
  match s.data with
  | '-' :: t => (core t).map fun q => mkRat (-q.num) q.den
  | l => core l

/-- The field dispatch at the top of `evaluate_rule_conditions`; `none` models
the `_ => continue` arm. -/
def conditionFieldValue (field : String) (incident : Incident) : Option String :=
  if field = "severity" then some (incidentSeverityToString incident.severity)
  else if field = "source_ip" then some incident.source_ip
  else if field = "user_id" then some incident.user_id
  else if field = "category" then some (categoryToString incident.threat_result.category)
  else if field = "confidence" then some (ratToString incident.threat_result.confidence)
  else none

/-- One condition of `evaluate_rule_conditions` (the body of the `for` loop,
`true` meaning "does not force an early `return false`"). -/
def conditionHolds (condition : ResponseCondition) (incident : Incident) : Bool :=
  match conditionFieldValue condition.field incident with
  | none => true
  | some fieldValue =>
    let conditionValue := if condition.case_sensitive then condition.value else strToLower condition.value
    let fieldValue := if condition.case_sensitive then fieldValue else strToLower fieldValue
    if condition.operator = "equals" then fieldValue = conditionValue
    else if condition.operator = "contains" then strContains fieldValue conditionValue
    else if condition.operator = "starts_with" then strStarts fieldValue conditionValue
    else if condition.operator = "ends_with" then strEnds fieldValue conditionValue
    else if condition.operator = "greater_than" then
      match parseRat fieldValue, parseRat conditionValue with
      | some a, some b => decide (b < a)
      | _, _ => false
    else if condition.operator = "less_than" then
      match parseRat fieldValue, parseRat conditionValue with
      | some a, some b => decide (a < b)
      | _, _ => false
    else false

/-- `IncidentResponseEngine::evaluate_rule_conditions`. -/
def evaluateRuleConditions (rule : ResponseRule) (incident : Incident) : Bool :=
  rule.conditions.all fun condition => conditionHolds condition incident

/-- `IncidentResponseEngine::evaluate_response_rules`, written as the loop over
the rule table: disabled rules are skipped, rules in cooldown are skipped, and
each remaining rule whose conditions hold appends its actions. -/
def evaluateResponseRules (now : Nat) (incident : Incident) :
    List (String × ResponseRule) → List ResponseAction
  | [] => []
  | (_, rule) :: rest =>
    (if rule.enabled then
      match rule.last_triggered with
      | some lastTriggered =>
        if u64sub now lastTriggered < rule.cooldown_seconds then []
        else if evaluateRuleConditions rule incident then rule.actions else []
      | none => if evaluateRuleConditions rule incident then rule.actions else []
    else []) ++ evaluateResponseRules now incident rest

/-- One step of `execute_response_actions`.  The `exec` oracle models the
outcome of the platform command / HTTP call behind each action; the branches
that return `Ok` without any external call in the source (`log_only`,
`send_email`, disabled Grafana) are deterministic here as well.  `block_ip` and
`disable_account` record their expiry entries before the external call, as in
the source. -/
def executeOneAction (exec : ResponseAction → Bool) (now : Nat) (st : IRState)
    (action : ResponseAction) : IRState × Bool :=
  match action with
  | .blockIP ip dur =>
    ({ st with blocked_ips := alInsert st.blocked_ips ip (now + dur) }, exec action)
  | .disableAccount uid _ =>
    ({ st with disabled_accounts := alInsert st.disabled_accounts uid (now + 3600) }, exec action)
  | .sendEmail _ _ _ => (st, true)
  | .grafanaAlert _ _ => (st, if st.config.grafana_enabled then exec action else true)
  | .logOnly _ => (st, true)
  | _ => (st, exec action)

/-- `IncidentResponseEngine::execute_response_actions`. -/
def executeResponseActions (exec : ResponseAction → Bool) (now : Nat) (st : IRState) :
    List ResponseAction → IRState × List ResponseActionResult
  | [] => (st, [])
  | action :: rest =>
    let (st1, ok) := executeOneAction exec now st action
    let result : ResponseActionResult :=
      { action_id := ""
        action_type := action
        success := ok
        error_message := if ok then none else some "action failed"
        execution_time_ms := 0
        timestamp := now }
    let (st2, results) := executeResponseActions exec now st1 rest
    (st2, result :: results)

/-- `IncidentResponseEngine::process_threat`. -/
def processThreat (exec : ResponseAction → Bool) (now : Nat) (st : IRState)
    (threat : AdvancedThreatResult) : IRState × Incident :=
  let (st1, incident) := createIncidentFromThreat now st threat
  let actions := evaluateResponseRules now incident st1.response_rules
  let (st2, results) := executeResponseActions exec now st1 actions
  let updated := { incident with response_actions := results }
  let st3 := { st2 with incidents := alInsert st2.incidents incident.id updated }
  let st4 := { st3 with
    performance_metrics := alInsert st3.performance_metrics "incident_processing_time_ms" (mkRat 0 1) }
  (st4, updated)

/-- Errors of the fallible orchestrator operations (`SIEMResult`). -/
abbrev SIEMResult (α : Type) := Except String α

/-- `IncidentResponseEngine::update_incident_status`. -/
def updateIncidentStatus (st : IRState) (incident_id : String) (status : IncidentStatus)
    (now : Nat) : IRState × SIEMResult Unit :=
  match alGet st.incidents incident_id with
  | some incident =>
    let incident := { incident with status := status, updated_at := now }
    let incident :=
      if status = .resolved then { incident with resolved_at := some now } else incident
    ({ st with incidents := alInsert st.incidents incident_id incident }, .ok ())
  | none => (st, .error ("Incident " ++ incident_id ++ " not found"))

/-- `IncidentResponseEngine::add_incident_note`. -/
def addIncidentNote (st : IRState) (incident_id : String) (note : String) (now : Nat) :
    IRState × SIEMResult Unit :=
  match alGet st.incidents incident_id with
  | some incident =>
    let incident := { incident with notes := incident.notes ++ [note], updated_at := now }
    ({ st with incidents := alInsert st.incidents incident_id incident }, .ok ())
  | none => (st, .error ("Incident " ++ incident_id ++ " not found"))

/-- `IncidentResponseEngine::assign_incident`. -/
def assignIncident (st : IRState) (incident_id : String) (assigned_to : String) (now : Nat) :
    IRState × SIEMResult Unit :=
  match alGet st.incidents incident_id with
  | some incident =>
    let incident := { incident with assigned_to := some assigned_to, updated_at := now }
    ({ st with incidents := alInsert st.incidents incident_id incident }, .ok ())
  | none => (st, .error ("Incident " ++ incident_id ++ " not found"))

/-- `IncidentResponseEngine::mark_false_positive`. -/
def markFalsePositive (st : IRState) (incident_id : String) (reason : String) (now : Nat) :
    IRState × SIEMResult Unit :=
  match alGet st.incidents incident_id with
  | some incident =>
    let incident :=
      { incident with
        false_positive := true
        status := .falsePositive
        notes := incident.notes ++ ["Marked as false positive: " ++ reason]
        updated_at := now }
    ({ st with incidents := alInsert st.incidents incident_id incident }, .ok ())
  | none => (st, .error ("Incident " ++ incident_id ++ " not found"))

/-! ### Fixtures shared by the incident-response theorems -/

/-- A concrete threat used as input of the evaluation theorems. -/
def testThreat : AdvancedThreatResult :=
  { threat_id := "t1"
    timestamp := 0
    severity := .high
    category := .bruteForce
    confidence := mkRat 9 10
    detection_method := "signature"
    source_ip := "10.0.0.1"
    destination_ip := ""
    user_id := "u1"
    description := "d"
    iocs := []
    signatures := []
    behavioral_context := none
    correlation_events := []
    false_positive_probability := mkRat 1 10
    gpu_processing_time_ms := mkRat 0 1
    details := [] }

/-! ### C7: SLA deadline determined by severity -/

/-- The SLA-offset table exactly as the claim states it, in seconds. -/
def claimSlaOffset : IncidentSeverity → Nat
  | .low => 24 * 60 * 60
  | .medium => 8 * 60 * 60
  | .high => 2 * 60 * 60
  | .critical => 30 * 60
  | .emergency => 15 * 60

/-- C7 (confirmed): for every incident created from a threat, the SLA deadline
equals the creation time plus an offset determined solely by the incident's
severity: 24 h for Low, 8 h for Medium, 2 h for High, 30 min for Critical and
15 min for Emergency. -/
theorem sla_deadline_matches_severity_table (now : Nat) (st : IRState)
    (threat : AdvancedThreatResult) :
    ((createIncidentFromThreat now st threat).2).sla_deadline =
      some (((createIncidentFromThreat now st threat).2).created_at +
        claimSlaOffset ((createIncidentFromThreat now st threat).2).severity) := by
  cases threat.severity <;> rfl

/-! ### C2: response-rule cooldown -/

/-- Rule fixture: enabled, matches every incident, one-hour cooldown, never
triggered before. -/
def c2Rule : ResponseRule :=
  { id := "r1"
    name := "r1"
    description := ""
    enabled := true
    conditions := []
    actions := [.logOnly "m"]
    priority := 1
    cooldown_seconds := 3600
    last_triggered := none }

/-- Engine-state fixture holding `c2Rule`. -/
def c2State : IRState :=
  { config := { email_enabled := false, grafana_enabled := false }
    response_rules := [("r1", c2Rule)]
    incidents := []
    blocked_ips := []
    disabled_accounts := []
    performance_metrics := []
    incident_counter := 0 }

/-- C2 (code_bug): `process_threat` never records `last_triggered`, so a rule
with `cooldown_seconds = 3600` executes its actions again for a second matching
incident only one second after the first — the claim (and the spec's cooldown
contract) requires the second execution to be suppressed.  The theorem
evaluates the embedded engine at the failing input: both incidents carry one
executed action, and the rule stored after both runs still has
`last_triggered = none`. -/
theorem c2_cooldown_never_recorded :
    (processThreat (fun _ => true) 1000 c2State testThreat).2.response_actions.length = 1 ∧
    (processThreat (fun _ => true) 1001
        (processThreat (fun _ => true) 1000 c2State testThreat).1 testThreat).2.response_actions.length = 1 ∧
    (alGet (processThreat (fun _ => true) 1001
        (processThreat (fun _ => true) 1000 c2State testThreat).1 testThreat).1.response_rules "r1").map
      (fun r => r.last_triggered) = some none ∧
    1001 - 1000 < 3600 := by
  refine ⟨rfl, rfl, rfl, by norm_num⟩

/-! ### C3: terminal incident states -/

/-- An incident fixture that sits in the terminal state `Closed`. -/
def c3Incident : Incident :=
  { id := "i1"
    timestamp := 100
    severity := .high
    status := .closed
    title := "t"
    description := "d"
    source_ip := "10.0.0.1"
    destination_ip := ""
    user_id := "u1"
    threat_id := "t1"
    threat_result := testThreat
    response_actions := []
    assigned_to := none
    notes := []
    tags := []
    created_at := 100
    updated_at := 100
    resolved_at := none
    false_positive := false
    escalation_level := 3
    sla_deadline := some 7300 }

/-- Engine-state fixture storing the closed incident `i1`. -/
def c3State : IRState :=
  { config := { email_enabled := false, grafana_enabled := false }
    response_rules := []
    incidents := [("i1", c3Incident)]
    blocked_ips := []
    disabled_accounts := []
    performance_metrics := []
    incident_counter := 1 }

/-- C3 counterexample: `update_incident_status` applied to an incident whose
status is the terminal state `Closed` moves it to `Investigating` (and
`assign_incident` sets `assigned_to`), so the status does leave the terminal
state and a field other than notes and tags is mutated — the claim is false on
the code. -/
theorem c3_terminal_not_protected_cex :
    (alGet (updateIncidentStatus c3State "i1" .investigating 2000).1.incidents "i1").map
      (fun i => i.status) = some .investigating ∧
    (alGet (assignIncident c3State "i1" "alice" 2000).1.incidents "i1").map
      (fun i => i.assigned_to) = some (some "alice") := by
  exact ⟨rfl, rfl⟩

/-- C3 (corrected): the orchestrator operations apply their mutations
unconditionally — terminal states confer no protection.  For every stored
incident (whatever its status, terminal or not): `update_incident_status`
replaces the status and `updated_at` (and sets `resolved_at` when the new
status is Resolved), `assign_incident` replaces `assigned_to` and `updated_at`,
`add_incident_note` appends the note and refreshes `updated_at`, and
`mark_false_positive` sets `false_positive`, moves the status to FalsePositive,
appends a note and refreshes `updated_at`.  Only `add_incident_note` is limited
to notes (plus `updated_at`); the claimed guard on terminal states does not
exist in the code. -/
theorem c3_mutation_footprint (st : IRState) (incident_id : String) (incident : Incident)
    (now : Nat) (status : IncidentStatus) (user note reason : String)
    (h : alGet st.incidents incident_id = some incident) :
    alGet (updateIncidentStatus st incident_id status now).1.incidents incident_id =
      some { incident with
        status := status
        updated_at := now
        resolved_at := if status = .resolved then some now else incident.resolved_at } ∧
    alGet (assignIncident st incident_id user now).1.incidents incident_id =
      some { incident with assigned_to := some user, updated_at := now } ∧
    alGet (addIncidentNote st incident_id note now).1.incidents incident_id =
      some { incident with notes := incident.notes ++ [note], updated_at := now } ∧
    alGet (markFalsePositive st incident_id reason now).1.incidents incident_id =
      some { incident with
        false_positive := true
        status := .falsePositive
        notes := incident.notes ++ ["Marked as false positive: " ++ reason]
        updated_at := now } := by
  refine ⟨?_, ?_, ?_, ?_⟩
  · unfold updateIncidentStatus
    rw [h]
    by_cases hs : status = .resolved <;> simp [hs, alGet_alInsert_self]
  · unfold assignIncident
    rw [h]
    simp [alGet_alInsert_self]
  · unfold addIncidentNote
    rw [h]
    simp [alGet_alInsert_self]
  · unfold markFalsePositive
    rw [h]
    simp [alGet_alInsert_self]

/-- Witness for `c3_mutation_footprint` at the concrete closed incident. -/
theorem c3_mutation_footprint_witness :
    alGet (updateIncidentStatus c3State "i1" .investigating 2000).1.incidents "i1" =
      some { c3Incident with
        status := .investigating
        updated_at := 2000
        resolved_at :=
          if (IncidentStatus.investigating = .resolved) then some 2000 else c3Incident.resolved_at } :=
  (c3_mutation_footprint c3State "i1" c3Incident 2000 .investigating "alice" "n" "r" rfl).1

/-! ### C10: empty and unrecognized response-rule conditions -/

/-- The five condition field names `evaluate_rule_conditions` recognizes. -/
def recognizedConditionFields : List String :=
  ["severity", "source_ip", "user_id", "category", "confidence"]

/-- The claim-side cooldown predicate: the rule has never triggered, or the
cooldown has elapsed. -/
def notInCooldown (now : Nat) (rule : ResponseRule) : Prop :=
  match rule.last_triggered with
  | none => True
  | some lastTriggered => rule.cooldown_seconds ≤ u64sub now lastTriggered

/-- A condition whose field name nothing recognizes is skipped. -/
theorem conditionFieldValue_none_of_unrecognized (field : String) (incident : Incident)
    (h : field ∉ recognizedConditionFields) : conditionFieldValue field incident = none := by
  simp only [recognizedConditionFields, List.mem_cons, List.mem_singleton, not_or] at h
  obtain ⟨h1, h2, h3, h4, h5, -⟩ := h
  simp [conditionFieldValue, h1, h2, h3, h4, h5]

/-- Rule fixture for the C10 counterexample: enabled, one unrecognized
condition, sitting in an active cooldown. -/
def c10Rule : ResponseRule :=
  { id := "r10"
    name := "r10"
    description := ""
    enabled := true
    conditions := [{ field := "frobnicate", operator := "equals", value := "x", case_sensitive := true }]
    actions := [.logOnly "m"]
    priority := 1
    cooldown_seconds := 100
    last_triggered := some 1000 }

/-- Engine-state fixture holding `c10Rule`. -/
def c10State : IRState :=
  { config := { email_enabled := false, grafana_enabled := false }
    response_rules := [("r10", c10Rule)]
    incidents := []
    blocked_ips := []
    disabled_accounts := []
    performance_metrics := []
    incident_counter := 0 }

/-- The incident the C10 counterexample evaluates the rule against. -/
def c10Incident : Incident := (createIncidentFromThreat 1000 c10State testThreat).2

/-- C10 counterexample: an enabled rule with no recognized conditions does
match every incident, but its actions do not run on every processed threat —
at time 1050 the rule is still inside its cooldown (`last_triggered = 1000`,
`cooldown_seconds = 100`), so the rule contributes no action and the processed
threat's incident carries none, refuting the claim's final consequent. -/
theorem c10_cooldown_blocks_unconditional_rule_cex :
    evaluateRuleConditions c10Rule c10Incident = true ∧
    evaluateResponseRules 1050 c10Incident c10State.response_rules = [] ∧
    (processThreat (fun _ => true) 1050 c10State testThreat).2.response_actions = [] := by
  exact ⟨rfl, rfl, rfl⟩

/-- C10 (corrected): `evaluate_rule_conditions` returns true for an empty
condition list, and every condition with an unrecognized field name is skipped
and treated as satisfied; consequently an enabled rule with no recognized
conditions matches every incident, and — provided the rule is not in cooldown,
a qualification the original claim lacks — each of its actions is produced for
every processed threat. -/
theorem empty_or_unrecognized_conditions_always_match :
    (∀ (rule : ResponseRule) (incident : Incident), rule.conditions = [] →
      evaluateRuleConditions rule incident = true) ∧
    (∀ (rule : ResponseRule) (incident : Incident),
      (∀ c ∈ rule.conditions, c.field ∉ recognizedConditionFields) →
      evaluateRuleConditions rule incident = true) ∧
    (∀ (rules : List (String × ResponseRule)) (rid : String) (rule : ResponseRule)
        (incident : Incident) (now : Nat), (rid, rule) ∈ rules → rule.enabled = true →
      (∀ c ∈ rule.conditions, c.field ∉ recognizedConditionFields) →
      notInCooldown now rule →
      ∀ a ∈ rule.actions, a ∈ evaluateResponseRules now incident rules) := by
  have hconds : ∀ (rule : ResponseRule) (incident : Incident),
      (∀ c ∈ rule.conditions, c.field ∉ recognizedConditionFields) →
      evaluateRuleConditions rule incident = true := by
    intro rule incident h
    unfold evaluateRuleConditions
    rw [List.all_eq_true]
    intro c hc
    unfold conditionHolds
    rw [conditionFieldValue_none_of_unrecognized c.field incident (h c hc)]
  refine ⟨?_, hconds, ?_⟩
  · intro rule incident h
    unfold evaluateRuleConditions
    rw [h]
    rfl
  · intro rules rid rule incident now hmem henabled hfields hcool a ha
    induction rules with
    | nil => cases hmem
    | cons head rest ih =>
      rcases List.mem_cons.mp hmem with heq | htail
      · subst heq
        unfold evaluateResponseRules
        refine List.mem_append.mpr (Or.inl ?_)
        rw [henabled]
        unfold notInCooldown at hcool
        cases hlt : rule.last_triggered with
        | none =>
          simp only [hlt, if_true]
          rw [hconds rule incident hfields]
          simpa using ha
        | some lastTriggered =>
          rw [hlt] at hcool
          simp only [hlt, if_true]
          rw [if_neg (by omega), hconds rule incident hfields]
          simpa using ha
      · unfold evaluateResponseRules
        cases head with
        | mk k r => exact List.mem_append.mpr (Or.inr (ih htail))

/-- Witness for `empty_or_unrecognized_conditions_always_match`: the same rule
as the counterexample but outside its cooldown does contribute its action. -/
theorem empty_or_unrecognized_conditions_always_match_witness :
    ResponseAction.logOnly "m" ∈
      evaluateResponseRules 1200 c10Incident c10State.response_rules :=
  empty_or_unrecognized_conditions_always_match.2.2 c10State.response_rules "r10" c10Rule
    c10Incident 1200 (by decide) rfl (by decide)
    (show (100 : Nat) ≤ u64sub 1200 1000 by decide)
    (ResponseAction.logOnly "m") (by decide)

/-! ### Correlation engine (`advanced_threat_detection.rs`) -/

/-- `CorrelationCondition`. -/
structure CorrelationCondition where
  event_type : String
  source_pattern : Option String
  target_pattern : Option String
  min_count : Nat
  max_count : Option Nat
  deriving DecidableEq

/-- `CorrelationRule`. -/
structure CorrelationRule where
  id : String
  name : String
  description : String
  conditions : List CorrelationCondition
  time_window : Nat
  severity : ThreatSeverity
  enabled : Bool
  deriving DecidableEq

/-- `CorrelationStatus`. -/
inductive CorrelationStatus where
  | active
  | triggered
  | expired
  deriving DecidableEq

/-- `ActiveCorrelation`. -/
structure ActiveCorrelation where
  rule_id : String
  start_time : Nat
  events : List CorrelationEvent
  status : CorrelationStatus
  deriving DecidableEq

/-- Mutable state of `CorrelationEngine`.  The `active_correlations` key
`format!("{}_{}", rule.id, event.timestamp)` is modelled as the pair
`(rule.id, event.timestamp)`. -/
structure CorrEngineState where
  events : List CorrelationEvent
  rules : List (String × CorrelationRule)
  active : List ((String × Nat) × ActiveCorrelation)
  deriving DecidableEq

/-- The per-event filter inside `check_correlation_triggered`: event type must
match and the optional source/target patterns are substring tests. -/
def correlationCondMatches (condition : CorrelationCondition) (e : CorrelationEvent) : Bool :=
  e.event_type = condition.event_type &&
  (match condition.source_pattern with
   | none => true
   | some p => strContains e.source p) &&
  (match condition.target_pattern with
   | none => true
   | some p => strContains e.target p)

/-- `CorrelationEngine::check_correlation_triggered`.  The source unwraps
`events.last()`; every call site pushes the current event first, so the list is
nonempty there and the `getLast?`-default is never taken. -/
def checkCorrelationTriggered (rule : CorrelationRule) (events : List CorrelationEvent) : Bool :=
  let lastTs := ((events.getLast?).map (fun e => e.timestamp)).getD 0
  let windowStart := u64sub lastTs rule.time_window
  let windowEvents := events.filter (fun e => decide (windowStart ≤ e.timestamp))
  rule.conditions.all fun condition =>
    let matching := windowEvents.filter (correlationCondMatches condition)
    decide (condition.min_count ≤ matching.length) &&
    (match condition.max_count with
     | none => true
     | some m => decide (matching.length ≤ m))

/-- The threat record built when a correlation rule fires. -/
def correlationThreat (rule : CorrelationRule) (event : CorrelationEvent)
    (events : List CorrelationEvent) : AdvancedThreatResult :=
  { threat_id := ""
    timestamp := event.timestamp
    severity := rule.severity
    category := .apt
    confidence := mkRat 9 10
    detection_method := "correlation"
    source_ip := event.source
    destination_ip := event.target
    user_id := ""
    description := "Multi-step attack detected: " ++ rule.name
    iocs := []
    signatures := []
    behavioral_context := none
    correlation_events := events
    false_positive_probability := mkRat 1 10
    gpu_processing_time_ms := mkRat 0 1
    details := [] }

/-- The body of the per-rule loop in `CorrelationEngine::process_event`. -/
def processCorrRule (event : CorrelationEvent)
    (acc : List ((String × Nat) × ActiveCorrelation) × List AdvancedThreatResult)
    (rule : CorrelationRule) :
    List ((String × Nat) × ActiveCorrelation) × List AdvancedThreatResult :=
  if !rule.enabled then acc
  else
    let (activeMap, threats) := acc
    let correlationId := (rule.id, event.timestamp)
    let active := (alGet activeMap correlationId).getD
      { rule_id := rule.id, start_time := event.timestamp, events := [], status := .active }
    let active := { active with events := active.events ++ [event] }
    if checkCorrelationTriggered rule active.events then
      (alInsert activeMap correlationId { active with status := .triggered },
       threats ++ [correlationThreat rule event active.events])
    else
      (alInsert activeMap correlationId active, threats)

/-- `CorrelationEngine::cleanup_expired_correlations`. -/
def cleanupExpiredCorrelations (currentTime : Nat)
    (active : List ((String × Nat) × ActiveCorrelation)) :
    List ((String × Nat) × ActiveCorrelation) :=
  active.filter fun entry => !(decide (3600 < u64sub currentTime entry.2.start_time))

/-- `CorrelationEngine::process_event`. -/
def processCorrEvent (st : CorrEngineState) (event : CorrelationEvent) :
    CorrEngineState × List AdvancedThreatResult :=
  let events := st.events ++ [event]
  let events := events.drop (events.length - 10000)
  let (active, threats) :=
    st.rules.foldl (fun acc kv => processCorrRule event acc kv.2) (st.active, [])
  let active := cleanupExpiredCorrelations event.timestamp active
  ({ st with events := events, active := active }, threats)

/-- Runs `process_event` over a list of events, collecting the per-event
threat lists. -/
def processCorrEvents (st : CorrEngineState) :
    List CorrelationEvent → CorrEngineState × List (List AdvancedThreatResult)
  | [] => (st, [])
  | e :: rest =>
    let (st1, threats) := processCorrEvent st e
    let (st2, rests) := processCorrEvents st1 rest
    (st2, threats :: rests)

/-! ### Signature engine (`YaraSignatureEngine`) -/

/-- The model of the external `regex` crate: `Regex::new` either fails or
yields a matcher.  Engine theorems quantify over this oracle. -/
abbrev RegexOracle := String → Option (String → Bool)

/-- Mutable state of `YaraSignatureEngine` (`patterns` is never written by the
source — `add_signature` does not compile — so only `compiled_signatures` and
`match_cache` carry state). -/
structure YaraState where
  compiled_signatures : List (String × SignaturePattern)
  match_cache : List (String × Nat)
  deriving DecidableEq

/-- `YaraSignatureEngine::add_signature`: stores the signature and returns
`Ok(())`; the pattern is not compiled and no error path exists. -/
def addSignature (st : YaraState) (signature : SignaturePattern) : YaraState × SIEMResult Unit :=
  ({ st with compiled_signatures := alInsert st.compiled_signatures signature.id signature },
   .ok ())

/-- One iteration of the `match_signatures` scan loop: the signature's pattern
is compiled on the fly (`Regex::new` inside the loop); a pattern that fails to
compile is silently skipped (`if let Ok(regex) = ...`). -/
def matchSigStep (rgx : RegexOracle) (now : Nat) (event : String)
    (acc : YaraState × List SignatureMatch) (kv : String × SignaturePattern) :
    YaraState × List SignatureMatch :=
  let (st, found) := acc
  let id := kv.1
  let signature := kv.2
  match rgx signature.pattern with
  | some isMatch =>
    if isMatch event then
      ({ st with match_cache := alInsert st.match_cache id (((alGet st.match_cache id).getD 0) + 1) },
       found ++ [{ signature_id := id
                   signature_name := signature.name
                   matched_text := event
                   confidence := mkRat 4 5
                   timestamp := now }])
    else (st, found)
  | none => (st, found)

/-- `YaraSignatureEngine::match_signatures`. -/
def matchSignatures (rgx : RegexOracle) (now : Nat) (st : YaraState) (event : String) :
    YaraState × List SignatureMatch :=
  st.compiled_signatures.foldl (matchSigStep rgx now event) (st, [])

/-! ### Behavioral analysis engine (`BehavioralAnalysisEngine`) -/

/-- `UserProfile`. -/
structure UserProfile where
  user_id : String
  login_patterns : List Nat
  action_patterns : List (String × Nat)
  risk_score : ℚ
  last_activity : Nat
  geo_locations : List String
  user_agents : List String
  deriving DecidableEq

/-- `IPProfile`. -/
structure IPProfile where
  ip_address : String
  connection_count : Nat
  failed_attempts : Nat
  last_seen : Nat
  geo_location : Option String
  risk_score : ℚ
  deriving DecidableEq

/-- `SessionContext`. -/
structure SessionContext where
  session_id : String
  user_id : String
  start_time : Nat
  last_activity : Nat
  actions : List String
  risk_score : ℚ
  deriving DecidableEq

/-- The verdict returned by the anomaly scorer
(`MLAnomalyEngine::score`'s result type). -/
structure AnomalyScore where
  is_anomaly : Bool
  score : ℚ
  details : List (String × String)
  deriving DecidableEq

/-- Modelled from the spec: `MLAnomalyEngine` is imported by
`advanced_threat_detection.rs` but missing from the sources, so its `score`
method is abstracted as a state-passing oracle over an arbitrary scorer state
`σ`; theorems about the behavioral engine quantify over it. -/
abbrev Scorer (σ : Type) := σ → String → ℚ → AnomalyScore × σ

/-- Mutable state of `BehavioralAnalysisEngine`, with the scorer state of its
`anomaly_engine`. -/
structure BehavioralState (σ : Type) where
  user_profiles : List (String × UserProfile)
  ip_profiles : List (String × IPProfile)
  session_tracker : List (String × SessionContext)
  anomaly : σ
  deriving DecidableEq

/-- The normalized JSON event handed to the engines (`serde_json::Value` with
`get(..).and_then(as_str/as_u64)` projections). -/
structure EventJson where
  timestamp : Option Nat
  source_ip : Option String
  destination_ip : Option String
  user_id : Option String
  action : Option String
  message : Option String
  event_type : Option String
  session_id : Option String
  user_agent : Option String
  deriving DecidableEq

/-- `BehavioralAnalysisEngine::calculate_user_risk` (`SystemTime::now` is the
explicit `now`). -/
def calculateUserRisk (now : Nat) (profile : UserProfile) : ℚ :=
  let risk := mkRat 0 1
  let risk := if 3600 < u64sub now profile.last_activity then qAdd risk (mkRat 1 5) else risk
  let risk := profile.action_patterns.foldl
    (fun r p => if 10 < p.2 then qAdd r (mkRat 1 10) else r) risk
  let risk := if 3 < profile.geo_locations.length then qAdd risk (mkRat 3 10) else risk
  qMin risk (mkRat 1 1)

/-- `BehavioralAnalysisEngine::calculate_ip_risk`. -/
def calculateIpRisk (profile : IPProfile) : ℚ :=
  let risk := mkRat 0 1
  let risk := if 100 < profile.connection_count then qAdd risk (mkRat 3 10) else risk
  let risk := if 5 < profile.failed_attempts then qAdd risk (mkRat 1 2) else risk
  qMin risk (mkRat 1 1)

/-- `BehavioralAnalysisEngine::calculate_session_risk` (of `&self` it reads
only `session_tracker`, which is what it receives here). -/
def calculateSessionRisk (session_tracker : List (String × SessionContext)) (user_id : String)
    (timestamp : Nat) : ℚ :=
  match alGet session_tracker user_id with
  | some session =>
    let risk := mkRat 0 1
    let risk := if 3600 * 24 < u64sub timestamp session.start_time then qAdd risk (mkRat 1 5) else risk
    let risk := if 1000 < session.actions.length then qAdd risk (mkRat 3 10) else risk
    risk
  | none => mkRat 0 1

/-- The fresh profile `or_insert_with` builds for an unseen user. -/
def freshUserProfile (user_id : String) (timestamp : Nat) : UserProfile :=
  { user_id := user_id
    login_patterns := []
    action_patterns := []
    risk_score := mkRat 0 1
    last_activity := timestamp
    geo_locations := []
    user_agents := [] }

/-- The fresh profile `or_insert_with` builds for an unseen source IP. -/
def freshIpProfile (source_ip : String) (timestamp : Nat) : IPProfile :=
  { ip_address := source_ip
    connection_count := 0
    failed_attempts := 0
    last_seen := timestamp
    geo_location := none
    risk_score := mkRat 0 1 }

/-- `BehavioralAnalysisEngine::analyze_behavior`, line by line: the user and IP
profiles are fetched (or created), the observation is incorporated into them
(action count, `last_activity`, connection count, `last_seen`), the risks are
computed from the already-updated profiles, the risk scores are stored, and
only then is the anomaly scorer consulted. -/
def analyzeBehavior {σ : Type} (score : Scorer σ) (now : Nat) (st : BehavioralState σ)
    (event : EventJson) : BehavioralState σ × Option BehavioralContext :=
  match event.user_id, event.source_ip, event.action, event.timestamp with
  | some user_id, some source_ip, some action, some timestamp =>
    let userProfile := (alGet st.user_profiles user_id).getD (freshUserProfile user_id timestamp)
    let userProfile :=
      { userProfile with
        action_patterns := alInsert userProfile.action_patterns action
          (((alGet userProfile.action_patterns action).getD 0) + 1)
        last_activity := timestamp }
    let ipProfile := (alGet st.ip_profiles source_ip).getD (freshIpProfile source_ip timestamp)
    let ipProfile :=
      { ipProfile with connection_count := ipProfile.connection_count + 1, last_seen := timestamp }
    let userRisk := calculateUserRisk now userProfile
    let ipRisk := calculateIpRisk ipProfile
    let sessionRisk := calculateSessionRisk st.session_tracker user_id timestamp
    let totalRisk := qDiv (qAdd (qAdd userRisk ipRisk) sessionRisk) (mkRat 3 1)
    let userProfile := { userProfile with risk_score := userRisk }
    let ipProfile := { ipProfile with risk_score := ipRisk }
    let st :=
      { st with
        user_profiles := alInsert st.user_profiles user_id userProfile
        ip_profiles := alInsert st.ip_profiles source_ip ipProfile }
    let (anomalyScore, anomaly) := score st.anomaly "user_activity" totalRisk
    let st := { st with anomaly := anomaly }
    if anomalyScore.is_anomaly then
      (st, some
        { user_id := user_id
          source_ip := source_ip
          destination_ip := (event.destination_ip).getD ""
          action := action
          timestamp := timestamp
          frequency := (alGet userProfile.action_patterns action).getD 0
          baseline_deviation := anomalyScore.score
          risk_score := totalRisk
          session_id := (event.session_id).getD ""
          user_agent := (event.user_agent).getD ""
          geo_location := ipProfile.geo_location
          time_of_day := (timestamp % 86400) / 3600
          day_of_week := (timestamp / 86400) % 7 })
    else (st, none)
  | _, _, _, _ => (st, none)

/-- Collapsing consecutive inserts at the same key. -/
theorem alInsert_alInsert_self {κ α : Type} [DecidableEq κ] (m : List (κ × α)) (k : κ) (v w : α) :
    alInsert (alInsert m k v) k w = alInsert m k w := by
  induction m with
  | nil => simp [alInsert]
  | cons h t ih =>
    by_cases hk : h.1 = k
    · simp [alInsert, hk]
    · simp [alInsert, hk, ih]

/-- The claim's reading of `analyze_behavior`: the anomaly score and verdict
are computed from the per-subject statistics as they were before the
observation is incorporated, and the statistics are updated only afterwards.
This definition follows the claim's words; `analyzeBehavior` follows the
source.  The two disagree (see the C4 counterexample). -/
def analyzeBehaviorScoreFirst {σ : Type} (score : Scorer σ) (now : Nat)
    (st : BehavioralState σ) (event : EventJson) : BehavioralState σ × Option BehavioralContext :=
  match event.user_id, event.source_ip, event.action, event.timestamp with
  | some user_id, some source_ip, some action, some timestamp =>
    let userPre := (alGet st.user_profiles user_id).getD (freshUserProfile user_id timestamp)
    let ipPre := (alGet st.ip_profiles source_ip).getD (freshIpProfile source_ip timestamp)
    let userRisk := calculateUserRisk now userPre
    let ipRisk := calculateIpRisk ipPre
    let sessionRisk := calculateSessionRisk st.session_tracker user_id timestamp
    let totalRisk := qDiv (qAdd (qAdd userRisk ipRisk) sessionRisk) (mkRat 3 1)
    let (anomalyScore, anomaly) := score st.anomaly "user_activity" totalRisk
    let userPost :=
      { userPre with
        action_patterns := alInsert userPre.action_patterns action
          (((alGet userPre.action_patterns action).getD 0) + 1)
        last_activity := timestamp
        risk_score := userRisk }
    let ipPost :=
      { ipPre with
        connection_count := ipPre.connection_count + 1
        last_seen := timestamp
        risk_score := ipRisk }
    let st :=
      { st with
        user_profiles := alInsert st.user_profiles user_id userPost
        ip_profiles := alInsert st.ip_profiles source_ip ipPost
        anomaly := anomaly }
    if anomalyScore.is_anomaly then
      (st, some
        { user_id := user_id
          source_ip := source_ip
          destination_ip := (event.destination_ip).getD ""
          action := action
          timestamp := timestamp
          frequency := (alGet userPre.action_patterns action).getD 0
          baseline_deviation := anomalyScore.score
          risk_score := totalRisk
          session_id := (event.session_id).getD ""
          user_agent := (event.user_agent).getD ""
          geo_location := ipPre.geo_location
          time_of_day := (timestamp % 86400) / 3600
          day_of_week := (timestamp / 86400) % 7 })
    else (st, none)
  | _, _, _, _ => (st, none)

/-- The corrected two-phase reading of `analyze_behavior`: phase one
incorporates the observation into the per-subject statistics (action count,
`last_activity`, connection count, `last_seen`); phase two computes the risks,
and the anomaly score and verdict, from the already-updated statistics (read
back out of the updated tables).  `c4_update_then_score` proves the source
function equal to this decomposition. -/
def analyzeBehaviorUpdateFirst {σ : Type} (score : Scorer σ) (now : Nat)
    (st : BehavioralState σ) (event : EventJson) : BehavioralState σ × Option BehavioralContext :=
  match event.user_id, event.source_ip, event.action, event.timestamp with
  | some user_id, some source_ip, some action, some timestamp =>
    let userStats := (alGet st.user_profiles user_id).getD (freshUserProfile user_id timestamp)
    let userStats :=
      { userStats with
        action_patterns := alInsert userStats.action_patterns action
          (((alGet userStats.action_patterns action).getD 0) + 1)
        last_activity := timestamp }
    let ipStats := (alGet st.ip_profiles source_ip).getD (freshIpProfile source_ip timestamp)
    let ipStats :=
      { ipStats with connection_count := ipStats.connection_count + 1, last_seen := timestamp }
    let st1 :=
      { st with
        user_profiles := alInsert st.user_profiles user_id userStats
        ip_profiles := alInsert st.ip_profiles source_ip ipStats }
    let userProfile := (alGet st1.user_profiles user_id).getD (freshUserProfile user_id timestamp)
    let ipProfile := (alGet st1.ip_profiles source_ip).getD (freshIpProfile source_ip timestamp)
    let userRisk := calculateUserRisk now userProfile
    let ipRisk := calculateIpRisk ipProfile
    let sessionRisk := calculateSessionRisk st1.session_tracker user_id timestamp
    let totalRisk := qDiv (qAdd (qAdd userRisk ipRisk) sessionRisk) (mkRat 3 1)
    let st2 :=
      { st1 with
        user_profiles := alInsert st1.user_profiles user_id { userProfile with risk_score := userRisk }
        ip_profiles := alInsert st1.ip_profiles source_ip { ipProfile with risk_score := ipRisk } }
    let (anomalyScore, anomaly) := score st2.anomaly "user_activity" totalRisk
    let st3 := { st2 with anomaly := anomaly }
    if anomalyScore.is_anomaly then
      (st3, some
        { user_id := user_id
          source_ip := source_ip
          destination_ip := (event.destination_ip).getD ""
          action := action
          timestamp := timestamp
          frequency := (alGet userProfile.action_patterns action).getD 0
          baseline_deviation := anomalyScore.score
          risk_score := totalRisk
          session_id := (event.session_id).getD ""
          user_agent := (event.user_agent).getD ""
          geo_location := ipProfile.geo_location
          time_of_day := (timestamp % 86400) / 3600
          day_of_week := (timestamp / 86400) % 7 })
    else (st3, none)
  | _, _, _, _ => (st, none)

/-! ### Top-level detection engine (`AdvancedThreatDetectionEngine`) -/

/-- `AdvancedThreatConfig`. -/
structure AdvancedThreatConfig where
  signature_enabled : Bool
  behavioral_enabled : Bool
  anomaly_enabled : Bool
  correlation_enabled : Bool
  gpu_acceleration : Bool
  false_positive_threshold : ℚ
  correlation_window_seconds : Nat
  anomaly_sensitivity : ℚ
  max_events_per_second : Nat
  whitelist_enabled : Bool
  deriving DecidableEq

/-- `AdvancedThreatConfig::default`. -/
def defaultConfig : AdvancedThreatConfig :=
  { signature_enabled := true
    behavioral_enabled := true
    anomaly_enabled := true
    correlation_enabled := true
    gpu_acceleration := true
    false_positive_threshold := mkRat 7 10
    correlation_window_seconds := 300
    anomaly_sensitivity := mkRat 2 1
    max_events_per_second := 1000000
    whitelist_enabled := true }

/-- The external and missing collaborators of the engine, bundled: `score` and
`batchScore` stand for the missing `MLAnomalyEngine` (modelled from the spec as
opaque-to-the-engine scoring oracles), `quantumMatches` for the missing
`QuantumDetector` scan interface, and `rgx` for the external `regex` crate. -/
structure Oracles (σ : Type) where
  score : Scorer σ
  batchScore : σ → List (String × ℚ) → List (String × AnomalyScore) × σ
  quantumMatches : String → List String
  rgx : RegexOracle

/-- Mutable state of `AdvancedThreatDetectionEngine`. -/
structure EngineState (σ : Type) where
  config : AdvancedThreatConfig
  yara : YaraState
  behavioral : BehavioralState σ
  corr : CorrEngineState
  whitelist : List String
  false_positive_history : List (String × Nat)
  performance_metrics : List (String × ℚ)
  deriving DecidableEq

/-- `AdvancedThreatDetectionEngine::is_whitelisted`. -/
def isWhitelisted {σ : Type} (st : EngineState σ) (event : EventJson) : Bool :=
  if !st.config.whitelist_enabled then false
  else
    (match event.source_ip with
     | some source_ip => st.whitelist.contains source_ip
     | none => false) ||
    (match event.user_id with
     | some user_id => st.whitelist.contains user_id
     | none => false)

/-- `AdvancedThreatDetectionEngine::signature_detection`.  The per-match
signature lookup (`unwrap` in the source) is total here because the match ids
come from the same table. -/
def signatureDetection {σ : Type} (rgx : RegexOracle) (now : Nat) (st : EngineState σ)
    (event : EventJson) : EngineState σ × List AdvancedThreatResult :=
  match event.message with
  | some message =>
    let (yara, found) := matchSignatures rgx now st.yara message
    let st := { st with yara := yara }
    let threats := found.filterMap fun m =>
      (alGet yara.compiled_signatures m.signature_id).map fun signature =>
        { threat_id := ""
          timestamp := (event.timestamp).getD now
          severity := signature.severity
          category := signature.category
          confidence := signature.confidence
          detection_method := "signature"
          source_ip := (event.source_ip).getD ""
          destination_ip := (event.destination_ip).getD ""
          user_id := (event.user_id).getD ""
          description := signature.description
          iocs := [m.signature_id]
          signatures := [m.signature_id]
          behavioral_context := none
          correlation_events := []
          false_positive_probability := mkRat 1 5
          gpu_processing_time_ms := mkRat 0 1
          details := [] }
    (st, threats)
  | none => (st, [])

/-- `AdvancedThreatDetectionEngine::create_behavioral_threat` (the numeric part
of the formatted description is not modelled; no theorem inspects it). -/
def createBehavioralThreat (context : BehavioralContext) : AdvancedThreatResult :=
  let severity :=
    if mkRat 4 5 < context.risk_score then ThreatSeverity.critical
    else if mkRat 3 5 < context.risk_score then ThreatSeverity.high
    else if mkRat 2 5 < context.risk_score then ThreatSeverity.medium
    else ThreatSeverity.low
  { threat_id := ""
    timestamp := context.timestamp
    severity := severity
    category := .insiderThreat
    confidence := context.risk_score
    detection_method := "behavioral"
    source_ip := context.source_ip
    destination_ip := context.destination_ip
    user_id := context.user_id
    description := "Suspicious behavior detected: " ++ context.action
    iocs := []
    signatures := []
    behavioral_context := some context
    correlation_events := []
    false_positive_probability := mkRat 3 10
    gpu_processing_time_ms := mkRat 0 1
    details := [] }

/-- `AdvancedThreatDetectionEngine::anomaly_detection` (its `batch_score` call
goes to the missing `MLAnomalyEngine`, hence through the oracle). -/
def anomalyDetection {σ : Type} (O : Oracles σ) (now : Nat) (st : EngineState σ)
    (event : EventJson) : EngineState σ × List AdvancedThreatResult :=
  let features :=
    (match event.timestamp with
     | some ts => [("time_of_day", mkRat (Int.ofNat ((ts % 86400) / 3600)) 1)]
     | none => []) ++
    (match event.user_id with
     | some user_id => [("user_activity", mkRat (Int.ofNat (user_id.length % 100)) 1)]
     | none => [])
  let (results, anomaly) := O.batchScore st.behavioral.anomaly features
  let st := { st with behavioral := { st.behavioral with anomaly := anomaly } }
  let threats := results.filterMap fun fr =>
    if fr.2.is_anomaly then some
      { threat_id := ""
        timestamp := (event.timestamp).getD now
        severity := ThreatSeverity.medium
        category := .other
        confidence := qMin fr.2.score (mkRat 1 1)
        detection_method := "anomaly"
        source_ip := (event.source_ip).getD ""
        destination_ip := (event.destination_ip).getD ""
        user_id := (event.user_id).getD ""
        description := "Anomaly detected in " ++ fr.1 ++ ": score " ++ ratToString fr.2.score
        iocs := []
        signatures := []
        behavioral_context := none
        correlation_events := []
        false_positive_probability := mkRat 2 5
        gpu_processing_time_ms := mkRat 0 1
        details := fr.2.details }
    else none
  (st, threats)

/-- `AdvancedThreatDetectionEngine::create_correlation_event`. -/
def createCorrelationEvent (now : Nat) (event : EventJson) : CorrelationEvent :=
  { id := ""
    timestamp := (event.timestamp).getD now
    event_type := (event.event_type).getD "unknown"
    source := (event.source_ip).getD ""
    target := (event.destination_ip).getD ""
    severity := .low
    confidence := mkRat 1 2
    metadata := [] }

/-- Rust `Vec::join(", ")`. -/
def joinComma : List String → String
  | [] => ""
  | [s] => s
  | s :: rest => s ++ ", " ++ joinComma rest

/-- `AdvancedThreatDetectionEngine::create_quantum_threat`. -/
def createQuantumThreat (now : Nat) (event : EventJson) (found : List String) :
    AdvancedThreatResult :=
  { threat_id := ""
    timestamp := (event.timestamp).getD now
    severity := .high
    category := .malware
    confidence := mkRat 4 5
    detection_method := "quantum"
    source_ip := (event.source_ip).getD ""
    destination_ip := (event.destination_ip).getD ""
    user_id := (event.user_id).getD ""
    description := "Quantum pattern match detected: " ++ joinComma found
    iocs := found
    signatures := []
    behavioral_context := none
    correlation_events := []
    false_positive_probability := mkRat 1 5
    gpu_processing_time_ms := mkRat 0 1
    details := [] }

/-- `AdvancedThreatDetectionEngine::is_false_positive`. -/
def isFalsePositive {σ : Type} (st : EngineState σ) (threat : AdvancedThreatResult) : Bool :=
  let key := threat.detection_method ++ ":" ++ threat.source_ip
  (match alGet st.false_positive_history key with
   | some count => decide (5 < count)
   | none => false) ||
  decide (threat.confidence < st.config.false_positive_threshold)

/-- `AdvancedThreatDetectionEngine::process_event`: whitelist early return,
then signature, behavioral, anomaly, correlation and quantum detection in
order, then the false-positive filter and the metrics write. -/
def processEvent {σ : Type} (O : Oracles σ) (now : Nat) (st : EngineState σ)
    (event : EventJson) : EngineState σ × List AdvancedThreatResult :=
  if isWhitelisted st event then (st, [])
  else
    let (st, threats) :=
      if st.config.signature_enabled then signatureDetection O.rgx now st event else (st, [])
    let (st, threats) :=
      if st.config.behavioral_enabled then
        let (behavioral, context?) := analyzeBehavior O.score now st.behavioral event
        let st := { st with behavioral := behavioral }
        match context? with
        | some context => (st, threats ++ [createBehavioralThreat context])
        | none => (st, threats)
      else (st, threats)
    let (st, threats) :=
      if st.config.anomaly_enabled then
        let (st1, anomalyThreats) := anomalyDetection O now st event
        (st1, threats ++ anomalyThreats)
      else (st, threats)
    let (st, threats) :=
      if st.config.correlation_enabled then
        let (corr, corrThreats) := processCorrEvent st.corr (createCorrelationEvent now event)
        ({ st with corr := corr }, threats ++ corrThreats)
      else (st, threats)
    let threats :=
      match event.message with
      | some message =>
        match O.quantumMatches message with
        | [] => threats
        | found => threats ++ [createQuantumThreat now event found]
      | none => threats
    let threats := threats.filter fun t => !(isFalsePositive st t)
    let st :=
      { st with
        performance_metrics := alInsert st.performance_metrics "avg_processing_time_ms" (mkRat 0 1) }
    (st, threats)

/-! ### C1: correlation min_count firing -/

/-- The default brute-force correlation rule from
`initialize_correlation_rules`: one condition, `min_count = 5`, five-minute
window. -/
def c1Rule : CorrelationRule :=
  { id := "brute_force_attack"
    name := "Brute Force Attack"
    description := "Multiple failed login attempts from same source"
    conditions := [{ event_type := "login_failed"
                     source_pattern := none
                     target_pattern := none
                     min_count := 5
                     max_count := none }]
    time_window := 300
    severity := .high
    enabled := true }

/-- Correlation-engine state holding only `c1Rule`. -/
def c1State : CorrEngineState :=
  { events := [], rules := [("brute_force_attack", c1Rule)], active := [] }

/-- A matching `login_failed` event at the given timestamp. -/
def c1Event (ts : Nat) : CorrelationEvent :=
  { id := ""
    timestamp := ts
    event_type := "login_failed"
    source := "10.0.0.2"
    target := ""
    severity := .low
    confidence := mkRat 1 2
    metadata := [] }

/-- C1 (code_bug): five events matching the single condition of the enabled
rule (`min_count = 5`), with timestamps 1000, 1060, 1120, 1180, 1240 — all
inside one 300-second window — produce no correlation threat on any of them.
The claim (and the spec) requires a threat exactly on the fifth.  The cause:
`process_event` keys its active correlations by
`format!("{}_{}", rule.id, event.timestamp)`, so events with distinct
timestamps land in distinct one-element correlations and a `min_count` of two
or more can never be reached across a window. -/
theorem c1_never_fires_across_window :
    (processCorrEvents c1State ([1000, 1060, 1120, 1180, 1240].map c1Event)).2 =
      [[], [], [], [], []] := by decide

/-! ### C4: scoring order in the behavioral engine -/

/-- A concrete scorer for the C4 counterexample: anomalous iff the scored
value exceeds 1/10, stateless. -/
def c4Score : Scorer Unit := fun s _ x =>
  ({ is_anomaly := decide (mkRat 1 10 < x), score := x, details := [] }, s)

/-- Behavioral state for the C4 counterexample: user `u1` has exactly 10
recorded `login` actions and IP `1.2.3.4` exactly 100 connections — both one
observation below their risk thresholds. -/
def c4State : BehavioralState Unit :=
  { user_profiles := [("u1",
      { user_id := "u1"
        login_patterns := []
        action_patterns := [("login", 10)]
        risk_score := mkRat 0 1
        last_activity := 2000
        geo_locations := []
        user_agents := [] })]
    ip_profiles := [("1.2.3.4",
      { ip_address := "1.2.3.4"
        connection_count := 100
        failed_attempts := 0
        last_seen := 2000
        geo_location := none
        risk_score := mkRat 0 1 })]
    session_tracker := []
    anomaly := () }

/-- The observation scored in the C4 counterexample. -/
def c4Event : EventJson :=
  { timestamp := some 2000
    source_ip := some "1.2.3.4"
    destination_ip := none
    user_id := some "u1"
    action := some "login"
    message := none
    event_type := none
    session_id := none
    user_agent := none }

/-- C4 counterexample: on `c4State`/`c4Event` the source engine increments the
action count (10 to 11) and the connection count (100 to 101) before computing
the risks, so the scored risk is 2/15 and the observation is flagged
anomalous; under the claim's order (score from the pre-observation statistics,
update afterwards) the scored risk is 0 and no anomaly is reported.  The
observation's own contribution does bias its own verdict, refuting the claim.
-/
theorem c4_score_uses_updated_stats_cex :
    ((analyzeBehavior c4Score 2000 c4State c4Event).2).isSome = true ∧
    ((analyzeBehaviorScoreFirst c4Score 2000 c4State c4Event).2).isSome = false := by
  exact ⟨rfl, rfl⟩

/-- C4 (corrected): for every scorer, state and observation, `analyze_behavior`
equals the update-then-score decomposition: the per-subject statistics are
updated first and the anomaly score and verdict are computed from the
already-updated statistics — the reverse of the claimed order. -/
theorem c4_update_then_score {σ : Type} (score : Scorer σ) (now : Nat)
    (st : BehavioralState σ) (event : EventJson) :
    analyzeBehavior score now st event = analyzeBehaviorUpdateFirst score now st event := by
  unfold analyzeBehavior analyzeBehaviorUpdateFirst
  cases event.user_id <;> cases event.source_ip <;> cases event.action <;> cases event.timestamp <;>
    simp [alGet_alInsert_self, alInsert_alInsert_self]

/-! ### C5: signature compilation time -/

/-- A concrete instance of the regex-crate model for the C5 and C6 theorems:
the pattern `"("` fails to compile (as it does under `Regex::new`), every
other pattern compiles to a literal substring matcher. -/
def rgxSubstr : RegexOracle := fun pattern =>
  if pattern = "(" then none else some fun s => strContains s pattern

/-- A regex-crate model under which no pattern compiles. -/
def rgxFailAll : RegexOracle := fun _ => none

/-- The empty signature-engine state. -/
def emptyYara : YaraState := { compiled_signatures := [], match_cache := [] }

/-- A signature whose pattern does not compile. -/
def c5BadSig : SignaturePattern :=
  { id := "bad"
    name := "Bad"
    pattern := "("
    category := .other
    severity := .low
    description := ""
    enabled := true
    confidence := mkRat 9 10 }

/-- The state after registering the uncompilable signature. -/
def c5Yara : YaraState := (addSignature emptyYara c5BadSig).1

/-- C5 counterexample: registering a signature whose pattern fails to compile
succeeds — `add_signature` returns `Ok(())` without ever attempting
compilation — contradicting the claim that compilation failures are reported
at registration. -/
theorem c5_add_signature_never_compiles_cex :
    rgxSubstr c5BadSig.pattern = none ∧
    (addSignature emptyYara c5BadSig).2 = Except.ok () := by
  exact ⟨rfl, rfl⟩

/-- C5 (corrected): patterns are never compiled at registration —
`add_signature` succeeds for every signature, compilable or not — and
`match_signatures` compiles every stored pattern anew on every scan: a scan
under an oracle where every stored pattern fails to compile silently yields no
matches and no error (second conjunct), while the very same registered state
scanned under an oracle that does compile the pattern yields a match (third
conjunct), so the matcher in force is the one compiled during the scan, not
one fixed at registration. -/
theorem c5_patterns_compiled_per_scan :
    (∀ (st : YaraState) (signature : SignaturePattern),
        (addSignature st signature).2 = Except.ok ()) ∧
    (∀ (rgx : RegexOracle) (now : Nat) (st : YaraState) (event : String),
        (∀ kv ∈ st.compiled_signatures, rgx kv.2.pattern = none) →
        matchSignatures rgx now st event = (st, [])) ∧
    ((matchSignatures rgxSubstr 0 c5Yara "x").2 = [] ∧
     (matchSignatures (fun _ => some fun _ => true) 0 c5Yara "x").2 ≠ []) := by
  have hfold : ∀ (rgx : RegexOracle) (now : Nat) (event : String)
      (l : List (String × SignaturePattern)) (acc : YaraState × List SignatureMatch),
      (∀ kv ∈ l, rgx kv.2.pattern = none) →
      l.foldl (matchSigStep rgx now event) acc = acc := by
    intro rgx now event l
    induction l with
    | nil => intro acc _; rfl
    | cons head tail ih =>
      intro acc h
      have hhead : rgx head.2.pattern = none := h head (List.mem_cons_self head tail)
      have hstep : matchSigStep rgx now event acc head = acc := by
        obtain ⟨accSt, accFound⟩ := acc
        simp [matchSigStep, hhead]
      rw [List.foldl_cons, hstep]
      exact ih acc fun kv hkv => h kv (List.mem_cons_of_mem head hkv)
  exact ⟨fun st signature => rfl,
    fun rgx now st event h => hfold rgx now event st.compiled_signatures (st, []) h,
    by decide, by decide⟩

/-- Witness for `c5_patterns_compiled_per_scan`: under the fail-all oracle the
scan over the registered state returns no matches and leaves the state
untouched. -/
theorem c5_patterns_compiled_per_scan_witness :
    matchSignatures rgxFailAll 0 c5Yara "x" = (c5Yara, []) :=
  c5_patterns_compiled_per_scan.2.1 rgxFailAll 0 c5Yara "x" (fun kv _ => rfl)

/-! ### C6: whitelist bypass -/

/-- The SQL-injection signature of the C6 counterexample (the default rule's
regex is modelled as the literal core of the injection probe under the
substring regex model). -/
def c6Sig : SignaturePattern :=
  { id := "sql_injection_1"
    name := "SQL Injection Detection"
    pattern := "UNION SELECT"
    category := .sqlInjection
    severity := .high
    description := "Detects SQL injection attempts"
    enabled := true
    confidence := mkRat 9 10 }

/-- Inert concrete oracles for the C6 evaluation: no behavioral anomaly, no
batch anomalies, no quantum matches, substring regex. -/
def c6Oracles : Oracles Unit :=
  { score := fun s _ _ => ({ is_anomaly := false, score := mkRat 0 1, details := [] }, s)
    batchScore := fun s _ => ([], s)
    quantumMatches := fun _ => []
    rgx := rgxSubstr }

/-- Engine state for C6: whitelisting enabled, `10.0.0.1` whitelisted, the
SQL-injection signature registered. -/
def c6State : EngineState Unit :=
  { config := defaultConfig
    yara := { compiled_signatures := [("sql_injection_1", c6Sig)], match_cache := [] }
    behavioral := { user_profiles := [], ip_profiles := [], session_tracker := [], anomaly := () }
    corr := { events := [], rules := [], active := [] }
    whitelist := ["10.0.0.1"]
    false_positive_history := []
    performance_metrics := [] }

/-- The whitelisted SQL-injection probe. -/
def c6Event : EventJson :=
  { timestamp := some 1000
    source_ip := some "10.0.0.1"
    destination_ip := none
    user_id := none
    action := none
    message := some "UNION SELECT * FROM users"
    event_type := none
    session_id := none
    user_agent := none }

/-- C6 counterexample: processing the whitelisted event returns zero findings
and leaves the engine state completely unchanged — so no counter of any kind,
in particular no `dropped_whitelisted` counter (none exists in the code), is
incremented, refuting the claim's final conjunct.  The second conjunct shows
the same event does produce a signature finding once the whitelist entry is
removed, so the zero findings really are the whitelist's doing. -/
theorem c6_no_dropped_whitelisted_counter_cex :
    processEvent c6Oracles 1000 c6State c6Event = (c6State, []) ∧
    (processEvent c6Oracles 1000 { c6State with whitelist := [] } c6Event).2.length = 1 := by
  exact ⟨rfl, rfl⟩

/-- C6 (corrected): for every oracle instantiation and state with whitelisting
enabled, an event whose `source_ip` or `user_id` is whitelisted produces zero
findings and leaves the engine state untouched (no counter is incremented —
the code has no `dropped_whitelisted` counter), even when the message matches
a registered signature; consequently feeding the (empty) findings to the
orchestrator creates zero incidents. -/
theorem c6_whitelisted_event_drops_silently {σ : Type} (O : Oracles σ) (now : Nat)
    (st : EngineState σ) (event : EventJson)
    (hw : st.config.whitelist_enabled = true)
    (hmem : (∃ ip, event.source_ip = some ip ∧ ip ∈ st.whitelist) ∨
            (∃ uid, event.user_id = some uid ∧ uid ∈ st.whitelist)) :
    processEvent O now st event = (st, []) ∧
    ∀ (exec : ResponseAction → Bool) (irSt : IRState),
      (processEvent O now st event).2.foldl (fun s t => (processThreat exec now s t).1) irSt =
        irSt := by
  have hwl : isWhitelisted st event = true := by
    unfold isWhitelisted
    rw [hw]
    rcases hmem with ⟨ip, hev, hin⟩ | ⟨uid, hev, hin⟩
    · rw [hev]
      simp [hin]
    · rw [hev]
      simp [hin]
  have hmain : processEvent O now st event = (st, []) := by
    unfold processEvent
    rw [hwl]
    rfl
  refine ⟨hmain, fun exec irSt => ?_⟩
  rw [hmain]
  rfl

/-- Witness for `c6_whitelisted_event_drops_silently` at the concrete
whitelisted SQL-injection probe. -/
theorem c6_whitelisted_event_drops_silently_witness :
    processEvent c6Oracles 1000 c6State c6Event = (c6State, []) :=
  (c6_whitelisted_event_drops_silently c6Oracles 1000 c6State c6Event rfl
    (Or.inl ⟨"10.0.0.1", rfl, by decide⟩)).1

/-! ### Supervisor (`supervisor.rs`) -/

/-- `RestartPolicy`. -/
structure RestartPolicy where
  max_restarts : Nat
  restart_delay_ms : Nat
  exponential_backoff : Bool
  max_restart_delay_ms : Nat
  deriving DecidableEq

/-- `ResourceLimits`. -/
structure ResourceLimits where
  max_memory_mb : Nat
  max_cpu_percent : ℚ
  max_file_descriptors : Nat
  deriving DecidableEq

/-- `ServiceConfig`. -/
structure ServiceConfig where
  name : String
  command : String
  args : List String
  working_dir : Option String
  restart_policy : RestartPolicy
  health_check_url : Option String
  health_check_interval : Nat
  max_restarts : Nat
  restart_delay : Nat
  priority : Nat
  dependencies : List String
  environment : List (String × String)
  resource_limits : ResourceLimits
  deriving DecidableEq

/-- `ServiceState`. -/
inductive ServiceState where
  | starting
  | running
  | stopping
  | stopped
  | failed
  | restarting
  deriving DecidableEq

/-- `HealthStatus`. -/
inductive HealthStatus where
  | healthy
  | unhealthy
  | unknown
  | degraded
  deriving DecidableEq

/-- `ServiceStatus`. -/
structure ServiceStatus where
  name : String
  pid : Option Nat
  status : ServiceState
  start_time : Nat
  last_restart : Nat
  restart_count : Nat
  health_status : HealthStatus
  memory_usage_mb : ℚ
  cpu_usage_percent : ℚ
  uptime_seconds : Nat
  last_health_check : Nat
  deriving DecidableEq

/-- `ServiceProcess` (`child` is the spawned process's pid; `Instant`-based
`last_restart_attempt` is milliseconds of the monotonic clock). -/
structure ServiceProcess where
  config : ServiceConfig
  child : Option Nat
  status : ServiceStatus
  last_restart_attempt : Nat
  consecutive_failures : Nat
  deriving DecidableEq

/-- `UltraSupervisor::start_service`; `spawnResult` is the pid returned by
`Command::spawn` (or `none` on failure). -/
def startService (spawnResult : Option Nat) (nowSecs : Nat) (sp : ServiceProcess) :
    ServiceProcess :=
  match spawnResult with
  | some pid =>
    { sp with
      child := some pid
      status := { sp.status with status := .running, pid := some pid, start_time := nowSecs }
      consecutive_failures := 0 }
  | none =>
    { sp with
      status := { sp.status with status := .failed }
      consecutive_failures := sp.consecutive_failures + 1 }

/-- `UltraSupervisor::attempt_restart`.  `nowMs` is the monotonic clock
(`Instant::now`) in milliseconds, `nowSecs` the wall clock (`SystemTime`) in
seconds.  The returned flag records whether a restart was performed (both
early returns yield `false`). -/
def attemptRestart (spawnResult : Option Nat) (nowMs nowSecs : Nat) (sp : ServiceProcess) :
    ServiceProcess × Bool :=
  if u64sub nowMs sp.last_restart_attempt < sp.config.restart_policy.restart_delay_ms then
    (sp, false)
  else if sp.config.max_restarts ≤ sp.status.restart_count then
    ({ sp with status := { sp.status with status := .failed } }, false)
  else
    let sp :=
      { sp with
        child := none
        status :=
          { sp.status with
            status := .restarting
            restart_count := sp.status.restart_count + 1
            last_restart := nowSecs }
        last_restart_attempt := nowMs }
    (startService spawnResult nowSecs sp, true)

/-- The backoff delay the claim prescribes for the n-th restart: the policy's
base delay doubling per restart, capped at `max_restart_delay_ms`. -/
def claimExpBackoffDelay (policy : RestartPolicy) (n : Nat) : Nat :=
  min (policy.restart_delay_ms * 2 ^ n) policy.max_restart_delay_ms

/-- Service fixture for the C8 counterexample: a failed service with
`exponential_backoff = true`, base delay 100 ms, cap 5000 ms, already
restarted 5 times, last attempt at monotonic time 0. -/
def c8Proc : ServiceProcess :=
  { config :=
    { name := "rust-quantum-core-0"
      command := "cargo"
      args := ["run", "--release"]
      working_dir := some "rust-core"
      restart_policy :=
        { max_restarts := 1000
          restart_delay_ms := 100
          exponential_backoff := true
          max_restart_delay_ms := 5000 }
      health_check_url := none
      health_check_interval := 5
      max_restarts := 1000
      restart_delay := 100
      priority := 1
      dependencies := []
      environment := []
      resource_limits :=
        { max_memory_mb := 2048, max_cpu_percent := mkRat 50 1, max_file_descriptors := 10000 } }
    child := none
    status :=
      { name := "rust-quantum-core-0"
        pid := none
        status := .failed
        start_time := 0
        last_restart := 0
        restart_count := 5
        health_status := .unknown
        memory_usage_mb := mkRat 0 1
        cpu_usage_percent := mkRat 0 1
        uptime_seconds := 0
        last_health_check := 0 }
    last_restart_attempt := 0
    consecutive_failures := 5 }

/-- C8 counterexample: the supervisor restarts `c8Proc` a flat 100 ms after
the previous attempt even though its policy has `exponential_backoff = true`
and the service has already been restarted 5 times, for which any exponential
schedule over this policy prescribes `min(100 * 2^5, 5000) = 3200 ms`.  The
`exponential_backoff` and `max_restart_delay_ms` fields are never read by
`attempt_restart`. -/
theorem c8_flat_delay_ignores_backoff_cex :
    (attemptRestart (some 42) 100 1 c8Proc).2 = true ∧
    100 < claimExpBackoffDelay c8Proc.config.restart_policy c8Proc.status.restart_count := by
  exact ⟨rfl, by decide⟩

/-- C8 (corrected): (i) after a failure the supervisor attempts a restart no
sooner than the flat `restart_policy.restart_delay_ms` since the last attempt
— not an exponential schedule; (ii) once `restart_count` has reached the
service config's `max_restarts`, a due `attempt_restart` call performs no
restart and marks the service `Failed` (no `Unrecoverable` state exists); and
(iii) from then on no sequence of further `attempt_restart` calls ever
performs a restart, spawns a child, or changes the restart count — the service
stays failed (or untouched) forever. -/
theorem c8_flat_delay_and_permanent_failure :
    (∀ (sp : ServiceProcess) (spawnResult : Option Nat) (nowMs nowSecs : Nat),
      u64sub nowMs sp.last_restart_attempt < sp.config.restart_policy.restart_delay_ms →
      attemptRestart spawnResult nowMs nowSecs sp = (sp, false)) ∧
    (∀ (sp : ServiceProcess) (spawnResult : Option Nat) (nowMs nowSecs : Nat),
      sp.config.restart_policy.restart_delay_ms ≤ u64sub nowMs sp.last_restart_attempt →
      sp.config.max_restarts ≤ sp.status.restart_count →
      attemptRestart spawnResult nowMs nowSecs sp =
        ({ sp with status := { sp.status with status := .failed } }, false)) ∧
    (∀ (calls : List (Option Nat × Nat × Nat)) (sp : ServiceProcess),
      sp.config.max_restarts ≤ sp.status.restart_count →
      let final := calls.foldl (fun s c => (attemptRestart c.1 c.2.1 c.2.2 s).1) sp
      final.status.restart_count = sp.status.restart_count ∧
      final.child = sp.child ∧
      (final.status.status = sp.status.status ∨ final.status.status = .failed) ∧
      ∀ (spawnResult : Option Nat) (nowMs nowSecs : Nat),
        (attemptRestart spawnResult nowMs nowSecs final).2 = false) := by
  have hstep : ∀ (sp : ServiceProcess) (spawnResult : Option Nat) (nowMs nowSecs : Nat),
      sp.config.max_restarts ≤ sp.status.restart_count →
      (attemptRestart spawnResult nowMs nowSecs sp).2 = false ∧
      (attemptRestart spawnResult nowMs nowSecs sp).1.config = sp.config ∧
      (attemptRestart spawnResult nowMs nowSecs sp).1.status.restart_count =
        sp.status.restart_count ∧
      (attemptRestart spawnResult nowMs nowSecs sp).1.child = sp.child ∧
      ((attemptRestart spawnResult nowMs nowSecs sp).1.status.status = sp.status.status ∨
       (attemptRestart spawnResult nowMs nowSecs sp).1.status.status = .failed) := by
    intro sp spawnResult nowMs nowSecs hmax
    unfold attemptRestart
    by_cases hdelay :
        u64sub nowMs sp.last_restart_attempt < sp.config.restart_policy.restart_delay_ms
    · simp [hdelay]
    · simp [hdelay, hmax]
  refine ⟨?_, ?_, ?_⟩
  · intro sp spawnResult nowMs nowSecs hdelay
    unfold attemptRestart
    simp [hdelay]
  · intro sp spawnResult nowMs nowSecs hdelay hmax
    unfold attemptRestart
    rw [if_neg (by omega), if_pos hmax]
  · intro calls
    induction calls with
    | nil =>
      intro sp hmax
      exact ⟨rfl, rfl, Or.inl rfl, fun spawnResult nowMs nowSecs =>
        (hstep sp spawnResult nowMs nowSecs hmax).1⟩
    | cons head rest ih =>
      intro sp hmax
      have hs := hstep sp head.1 head.2.1 head.2.2 hmax
      have hmax1 : (attemptRestart head.1 head.2.1 head.2.2 sp).1.config.max_restarts ≤
          (attemptRestart head.1 head.2.1 head.2.2 sp).1.status.restart_count := by
        rw [hs.2.1, hs.2.2.1]
        exact hmax
      have hrest := ih (attemptRestart head.1 head.2.1 head.2.2 sp).1 hmax1
      refine ⟨?_, ?_, ?_, ?_⟩
      · rw [List.foldl_cons] at *
        exact hrest.1.trans hs.2.2.1
      · rw [List.foldl_cons] at *
        exact hrest.2.1.trans hs.2.2.2.1
      · rw [List.foldl_cons] at *
        rcases hrest.2.2.1 with heq | hfail
        · rw [heq]
          exact hs.2.2.2.2
        · exact Or.inr hfail
      · rw [List.foldl_cons] at *
        exact hrest.2.2.2

/-- Witness for `c8_flat_delay_and_permanent_failure`: the exhausted service
(`restart_count = max_restarts = 5`) is only marked failed by a due call and is
never restarted by the following calls. -/
theorem c8_flat_delay_and_permanent_failure_witness :
    attemptRestart (some 42) 100 1
        { c8Proc with config := { c8Proc.config with max_restarts := 5 } } =
      ({ { c8Proc with config := { c8Proc.config with max_restarts := 5 } } with
          status :=
            { { c8Proc with config := { c8Proc.config with max_restarts := 5 } }.status with
                status := .failed } }, false) :=
  c8_flat_delay_and_permanent_failure.2.1
    { c8Proc with config := { c8Proc.config with max_restarts := 5 } }
    (some 42) 100 1 (by decide) (by decide)

/-! ### Boyer-Moore pattern matcher (`optimized_pattern_matcher.rs`) -/

/-- Bytes (`u8`). -/
abbrev Byte := Fin 256

/-- One write of the table-building loop in `build_boyer_moore_table`. -/
def bmTableStep (n : Nat) (table : List Nat) (p : Nat × Byte) : List Nat :=
  table.set p.2.val (n - 1 - p.1)

/-- `OptimizedPatternMatcher::build_boyer_moore_table`: a 256-entry
bad-character table initialized to `pattern.len()`, then
`table[byte] = pattern.len() - 1 - i` for each indexed byte of the pattern
except the last (`.enumerate().take(pattern.len() - 1)`). -/
def buildBoyerMooreTable (pattern : List Byte) : List Nat :=
  ((pattern.take (pattern.length - 1)).enum).foldl (bmTableStep pattern.length)
    (List.replicate 256 pattern.length)

/-- The inner comparison loop of `boyer_moore_search` fused with the final
`j == 0 && text[k] == pattern[0]` test: starting from `pattern` index `j` and
`text` index `k`, compare right to left. -/
def bmInner (text pattern : List Byte) : Nat → Nat → Bool
  | 0, k => text.getD k 0 == pattern.getD 0 0
  | j + 1, k =>
    if text.getD k 0 == pattern.getD (j + 1) 0 then bmInner text pattern j (k - 1) else false

/-- The outer `while i < text_len` loop of `boyer_moore_search`, with explicit
fuel.  For tables built by `buildBoyerMooreTable` on a nonempty pattern every
entry is at least 1, so `i` strictly increases and `text.length + 1` fuel is
enough; with a zero shift the Rust loop would spin forever (and this model
runs out of fuel), a situation no built table produces. -/
def bmLoop (text pattern : List Byte) (table : List Nat) : Nat → Nat → Bool
  | 0, _ => false
  | fuel + 1, i =>
    if i < text.length then
      if bmInner text pattern (pattern.length - 1) i then true
      else bmLoop text pattern table fuel (i + table.getD (text.getD i 0).val 0)
    else false

/-- `OptimizedPatternMatcher::boyer_moore_search`. -/
def boyerMooreSearch (text pattern : List Byte) (table : List Nat) : Bool :=
  if pattern.isEmpty || text.isEmpty || decide (text.length < pattern.length) then false
  else bmLoop text pattern table (text.length + 1) (pattern.length - 1)

/-- Occurrence of `pattern` in `text` at start position `s` (the naive
substring-search specification the claim compares against). -/
def matchAt (text pattern : List Byte) (s : Nat) : Prop :=
  s + pattern.length ≤ text.length ∧
  ∀ d, d < pattern.length → text.getD (s + d) 0 = pattern.getD d 0

instance matchAt.dec (text pattern : List Byte) (s : Nat) : Decidable (matchAt text pattern s) := by
  unfold matchAt
  exact instDecidableAnd

/-- Specification of the inner loop: it accepts exactly when the last `j + 1`
pattern positions match the text ending at `k`. -/
theorem bmInner_iff (text pattern : List Byte) :
    ∀ (j k : Nat), k < text.length → j < pattern.length → j ≤ k →
    (bmInner text pattern j k = true ↔
      ∀ d, d ≤ j → text.getD (k - j + d) 0 = pattern.getD d 0) := by
  intro j
  induction j with
  | zero =>
    intro k _ _ _
    constructor
    · intro h d hd
      interval_cases d
      simpa [bmInner] using h
    · intro h
      simpa [bmInner] using h 0 (Nat.le_refl 0)
  | succ j ih =>
    intro k hk hj hjk
    have hk1 : k - 1 < text.length := by omega
    have hj1 : j < pattern.length := by omega
    have hjk1 : j ≤ k - 1 := by omega
    have hsub : ∀ d : Nat, k - 1 - j + d = k - (j + 1) + d := by
      intro d
      omega
    by_cases heq : text.getD k 0 = pattern.getD (j + 1) 0
    · have hstep : bmInner text pattern (j + 1) k = bmInner text pattern j (k - 1) := by
        show (if text.getD k 0 == pattern.getD (j + 1) 0 then bmInner text pattern j (k - 1)
          else false) = bmInner text pattern j (k - 1)
        rw [if_pos (beq_iff_eq.mpr heq)]
      rw [hstep, ih (k - 1) hk1 hj1 hjk1]
      constructor
      · intro h d hd
        rcases Nat.lt_or_ge d (j + 1) with hlt | hge
        · rw [← hsub d]
          exact h d (by omega)
        · have hd1 : d = j + 1 := by omega
          subst hd1
          have hkk : k - (j + 1) + (j + 1) = k := by omega
          rw [hkk]
          exact heq
      · intro h d hd
        rw [hsub d]
        exact h d (by omega)
    · have hstep : bmInner text pattern (j + 1) k = false := by
        show (if text.getD k 0 == pattern.getD (j + 1) 0 then bmInner text pattern j (k - 1)
          else false) = false
        rw [if_neg (fun h => heq (beq_iff_eq.mp h))]
      rw [hstep]
      constructor
      · intro h
        cases h
      · intro h
        exfalso
        apply heq
        have := h (j + 1) (Nat.le_refl _)
        have hkk : k - (j + 1) + (j + 1) = k := by omega
        rw [hkk] at this
        exact this

/-- The table-building fold preserves the table length. -/
theorem foldl_bmTableStep_length (n : Nat) :
    ∀ (ps : List (Nat × Byte)) (t : List Nat), (ps.foldl (bmTableStep n) t).length = t.length := by
  intro ps
  induction ps with
  | nil => intro t; rfl
  | cons p ps ih =>
    intro t
    rw [List.foldl_cons, ih]
    simp [bmTableStep]

/-- The built table has 256 entries. -/
theorem buildBoyerMooreTable_length (pattern : List Byte) :
    (buildBoyerMooreTable pattern).length = 256 := by
  unfold buildBoyerMooreTable
  rw [foldl_bmTableStep_length, List.length_replicate]

/-- Every entry of the fold comes from the initial table or from a write. -/
theorem foldl_bmTableStep_mem (n : Nat) :
    ∀ (ps : List (Nat × Byte)) (t : List Nat) (x : Nat), x ∈ ps.foldl (bmTableStep n) t →
      x ∈ t ∨ ∃ p ∈ ps, x = n - 1 - p.1 := by
  intro ps
  induction ps with
  | nil => intro t x hx; exact Or.inl hx
  | cons p ps ih =>
    intro t x hx
    rw [List.foldl_cons] at hx
    rcases ih _ x hx with hmem | ⟨q, hq, hxq⟩
    · rcases List.mem_or_eq_of_mem_set hmem with h | h
      · exact Or.inl h
      · exact Or.inr ⟨p, List.mem_cons_self p ps, h⟩
    · exact Or.inr ⟨q, List.mem_cons_of_mem p hq, hxq⟩

/-- Every table entry is either the default `pattern.length` or
`pattern.length - 1 - i` for some `i < pattern.length - 1`. -/
theorem buildBoyerMooreTable_entry_cases (pattern : List Byte) (b : Byte) :
    (buildBoyerMooreTable pattern).getD b.val 0 = pattern.length ∨
    ∃ i, i < pattern.length - 1 ∧
      (buildBoyerMooreTable pattern).getD b.val 0 = pattern.length - 1 - i := by
  have hb : b.val < (buildBoyerMooreTable pattern).length := by
    rw [buildBoyerMooreTable_length]
    exact b.isLt
  have hmem : (buildBoyerMooreTable pattern).getD b.val 0 ∈ buildBoyerMooreTable pattern := by
    rw [List.getD_eq_getElem?_getD, List.getElem?_eq_getElem hb]
    exact List.getElem_mem hb
  unfold buildBoyerMooreTable at hmem
  rcases foldl_bmTableStep_mem pattern.length _ _ _ hmem with hrep | ⟨p, hp, hx⟩
  · exact Or.inl (List.eq_of_mem_replicate hrep)
  · refine Or.inr ⟨p.1, ?_, ?_⟩
    · have := List.fst_lt_of_mem_enum hp
      simpa using this
    · unfold buildBoyerMooreTable
      exact hx

/-- Nonempty patterns produce strictly positive shifts: the loop always
advances. -/
theorem buildBoyerMooreTable_pos (pattern : List Byte) (hp : pattern ≠ []) (b : Byte) :
    1 ≤ (buildBoyerMooreTable pattern).getD b.val 0 := by
  have hn : 1 ≤ pattern.length := List.length_pos.mpr hp
  rcases buildBoyerMooreTable_entry_cases pattern b with h | ⟨i, hi, h⟩ <;> omega

/-- Every shift is at most the pattern length. -/
theorem buildBoyerMooreTable_le (pattern : List Byte) (b : Byte) :
    (buildBoyerMooreTable pattern).getD b.val 0 ≤ pattern.length := by
  rcases buildBoyerMooreTable_entry_cases pattern b with h | ⟨i, hi, h⟩ <;> omega

/-- The fold keeps an entry below `bound` as long as every remaining write is
below `bound`. -/
theorem foldl_bmTableStep_getD_le (n : Nat) (c : Byte) (bound : Nat) :
    ∀ (ps : List (Nat × Byte)) (t : List Nat), t.length = 256 → t.getD c.val 0 ≤ bound →
      (∀ q ∈ ps, n - 1 - q.1 ≤ bound) →
      (ps.foldl (bmTableStep n) t).getD c.val 0 ≤ bound := by
  intro ps
  induction ps with
  | nil => intro t _ h _; exact h
  | cons p ps ih =>
    intro t hlen hval hsteps
    rw [List.foldl_cons]
    apply ih
    · simp [bmTableStep, hlen]
    · show (t.set p.2.val (n - 1 - p.1)).getD c.val 0 ≤ bound
      by_cases hc : p.2.val = c.val
      · have hset : (t.set p.2.val (n - 1 - p.1)).getD c.val 0 = n - 1 - p.1 := by
          rw [List.getD_eq_getElem?_getD, hc, List.getElem?_set_self (by omega : c.val < t.length)]
          rfl
        rw [hset]
        exact hsteps p (List.mem_cons_self p ps)
      · have hset : (t.set p.2.val (n - 1 - p.1)).getD c.val 0 = t.getD c.val 0 := by
          rw [List.getD_eq_getElem?_getD, List.getElem?_set_ne hc, ← List.getD_eq_getElem?_getD]
        rw [hset]
        exact hval
    · intro q hq
      exact hsteps q (List.mem_cons_of_mem p hq)

/-- The bad-character bound: the shift stored for a pattern byte that occurs
at position `d` (below the last position) is at most `pattern.length - 1 - d`,
so shifting by it never jumps past an occurrence aligned there. -/
theorem buildBoyerMooreTable_occ_le (pattern : List Byte) (d : Nat)
    (hd : d + 1 < pattern.length) :
    (buildBoyerMooreTable pattern).getD (pattern.getD d 0).val 0 ≤ pattern.length - 1 - d := by
  have hdp : d < pattern.length := by omega
  have hdl : d < (pattern.take (pattern.length - 1)).length := by
    simp
    omega
  have hdl' : d < (pattern.take (pattern.length - 1)).enum.length := by
    simpa using hdl
  have htake : (pattern.take (pattern.length - 1))[d] = pattern[d] := by
    simp
  have hc : (pattern.take (pattern.length - 1))[d] = pattern.getD d 0 := by
    rw [htake, List.getD_eq_getElem?_getD, List.getElem?_eq_getElem hdp]
    rfl
  have hget : (pattern.take (pattern.length - 1)).enum[d] = (d, pattern.getD d 0) := by
    rw [List.getElem_enum, hc]
  have hsplit : (pattern.take (pattern.length - 1)).enum =
      (pattern.take (pattern.length - 1)).enum.take d ++
        (d, pattern.getD d 0) :: (pattern.take (pattern.length - 1)).enum.drop (d + 1) := by
    conv_lhs => rw [← List.take_append_drop (d + 1) (pattern.take (pattern.length - 1)).enum]
    rw [List.take_succ, List.getElem?_eq_getElem hdl', hget]
    simp
  unfold buildBoyerMooreTable
  rw [hsplit, List.foldl_append, List.foldl_cons]
  apply foldl_bmTableStep_getD_le
  · simp only [bmTableStep, List.length_set]
    rw [foldl_bmTableStep_length, List.length_replicate]
  · show ((((pattern.take (pattern.length - 1)).enum.take d).foldl
        (bmTableStep pattern.length) (List.replicate 256 pattern.length)).set
          (pattern.getD d 0).val (pattern.length - 1 - d)).getD (pattern.getD d 0).val 0 ≤
      pattern.length - 1 - d
    rw [List.getD_eq_getElem?_getD, List.getElem?_set_self]
    · rfl
    · rw [foldl_bmTableStep_length, List.length_replicate]
      exact (pattern.getD d 0).isLt
  · intro q hq
    rcases List.mem_iff_getElem.mp hq with ⟨i, hi, hqi⟩
    have hlen2 : d + 1 + i < (pattern.take (pattern.length - 1)).enum.length := by
      have hi2 := hi
      simp only [List.length_drop] at hi2
      omega
    have hdrop : ((pattern.take (pattern.length - 1)).enum.drop (d + 1)).get ⟨i, hi⟩ =
        ((pattern.take (pattern.length - 1)).enum).get ⟨d + 1 + i, hlen2⟩ := by
      simp [List.getElem_drop]
    have hq2 : q = ((pattern.take (pattern.length - 1)).enum).get ⟨d + 1 + i, hlen2⟩ := by
      rw [← hdrop, List.get_eq_getElem]
      exact hqi.symm
    have hq1 : q.1 = d + 1 + i := by
      rw [hq2, List.get_eq_getElem, List.getElem_enum]
    omega

/-- Loop invariant of the Horspool scan: with the built table and enough fuel,
the loop from window end `i` accepts exactly when some occurrence ends at or
after `i`.  Key facts: every shift is at least 1 (progress), at most
`pattern.length`, and bounded by the bad-character rule, so no shift ever
jumps past an occurrence end. -/
theorem bmLoop_iff (text pattern : List Byte) (hp : pattern ≠ [])
    (hlen : pattern.length ≤ text.length) :
    ∀ (fuel i : Nat), text.length - i < fuel → pattern.length - 1 ≤ i →
    (bmLoop text pattern (buildBoyerMooreTable pattern) fuel i = true ↔
      ∃ s, matchAt text pattern s ∧ i ≤ s + pattern.length - 1) := by
  intro fuel
  induction fuel with
  | zero => intro i hfuel _; omega
  | succ fuel ih =>
    intro i hfuel hi
    have hplen : 1 ≤ pattern.length := List.length_pos.mpr hp
    simp only [bmLoop]
    by_cases hit : i < text.length
    · rw [if_pos hit]
      by_cases hinner : bmInner text pattern (pattern.length - 1) i = true
      · rw [if_pos hinner]
        constructor
        · intro _
          refine ⟨i - (pattern.length - 1), ⟨by omega, ?_⟩, by omega⟩
          intro d hd
          have hall := (bmInner_iff text pattern (pattern.length - 1) i hit (by omega) hi).mp hinner
          exact hall d (by omega)
        · intro _
          rfl
      · rw [if_neg hinner]
        have hpos : 1 ≤ (buildBoyerMooreTable pattern).getD (text.getD i 0).val 0 :=
          buildBoyerMooreTable_pos pattern hp _
        have hle : (buildBoyerMooreTable pattern).getD (text.getD i 0).val 0 ≤ pattern.length :=
          buildBoyerMooreTable_le pattern _
        rw [ih (i + (buildBoyerMooreTable pattern).getD (text.getD i 0).val 0) (by omega) (by omega)]
        constructor
        · rintro ⟨s, hm, hs⟩
          exact ⟨s, hm, by omega⟩
        · rintro ⟨s, hm, hs⟩
          refine ⟨s, hm, ?_⟩
          have hne : ¬(s + pattern.length - 1 = i) := by
            intro he
            apply hinner
            rw [bmInner_iff text pattern (pattern.length - 1) i hit (by omega) hi]
            intro d hd
            have hidx : i - (pattern.length - 1) + d = s + d := by omega
            rw [hidx]
            exact hm.2 d (by omega)
          have hstl : s + pattern.length ≤ text.length := hm.1
          have hlt : i < s + pattern.length - 1 := by omega
          rcases Nat.lt_or_ge i s with hcase | hcase
          · omega
          · have hd : (i - s) + 1 < pattern.length := by omega
            have htext : text.getD i 0 = pattern.getD (i - s) 0 := by
              have hval := hm.2 (i - s) (by omega)
              have hsi : s + (i - s) = i := by omega
              rw [hsi] at hval
              exact hval
            have hocc := buildBoyerMooreTable_occ_le pattern (i - s) hd
            rw [← htext] at hocc
            omega
    · rw [if_neg hit]
      constructor
      · intro h
        cases h
      · rintro ⟨s, hm, hs⟩
        have := hm.1
        omega

/-- The occurrence predicate coincides with list-infix containment. -/
theorem exists_matchAt_iff_isInfix (text pattern : List Byte) :
    (∃ s, matchAt text pattern s) ↔ pattern <:+: text := by
  rw [List.isInfix_iff]
  constructor
  · rintro ⟨s, hs1, hs2⟩
    refine ⟨s, by omega, ?_⟩
    intro i hilt
    have hin : s + i < text.length := by omega
    have hval := hs2 i hilt
    rw [List.getD_eq_getElem?_getD, List.getD_eq_getElem?_getD,
        List.getElem?_eq_getElem hin, List.getElem?_eq_getElem hilt] at hval
    simp only [Option.getD_some] at hval
    rw [Nat.add_comm i s, List.getElem?_eq_getElem hin, hval]
  · rintro ⟨k, hk, hcov⟩
    refine ⟨k, by omega, ?_⟩
    intro d hd
    have hin : d + k < text.length := by omega
    have hin' : k + d < text.length := by omega
    have hval := hcov d hd
    rw [List.getElem?_eq_getElem hin] at hval
    rw [List.getD_eq_getElem?_getD, List.getD_eq_getElem?_getD,
        List.getElem?_eq_getElem hin', List.getElem?_eq_getElem hd]
    have hidx : k + d = d + k := Nat.add_comm k d
    simp only [Option.getD_some, hidx]
    exact Option.some.inj hval

/-- C9 (confirmed): for every nonempty pattern no longer than the text,
`boyer_moore_search` with the table built by `build_boyer_moore_table` returns
true exactly when the pattern occurs as a contiguous substring of the text
(naive substring search); and it returns false whenever the pattern is empty,
the text is empty, or the pattern is longer than the text. -/
theorem boyer_moore_matches_naive_search (text pattern : List Byte) :
    (pattern ≠ [] → pattern.length ≤ text.length →
      (boyerMooreSearch text pattern (buildBoyerMooreTable pattern) = true ↔
        pattern <:+: text)) ∧
    (pattern = [] ∨ text = [] ∨ text.length < pattern.length →
      boyerMooreSearch text pattern (buildBoyerMooreTable pattern) = false) := by
  constructor
  · intro hp hlen
    have hplen : 1 ≤ pattern.length := List.length_pos.mpr hp
    have htext : text ≠ [] := by
      intro h
      rw [h] at hlen
      simp only [List.length_nil] at hlen
      omega
    have hguard :
        (pattern.isEmpty || text.isEmpty || decide (text.length < pattern.length)) = false := by
      simp [List.isEmpty_iff, hp, htext]
      omega
    have hgoal : boyerMooreSearch text pattern (buildBoyerMooreTable pattern) =
        bmLoop text pattern (buildBoyerMooreTable pattern) (text.length + 1)
          (pattern.length - 1) := by
      unfold boyerMooreSearch
      rw [hguard]
      rfl
    rw [hgoal,
      bmLoop_iff text pattern hp hlen (text.length + 1) (pattern.length - 1) (by omega)
        (Nat.le_refl _)]
    rw [← exists_matchAt_iff_isInfix text pattern]
    constructor
    · rintro ⟨s, hm, _⟩
      exact ⟨s, hm⟩
    · rintro ⟨s, hm⟩
      exact ⟨s, hm, by omega⟩
  · intro h
    unfold boyerMooreSearch
    rcases h with h | h | h <;>
    · have hguard :
          (pattern.isEmpty || text.isEmpty || decide (text.length < pattern.length)) = true := by
        simp [h]
      rw [hguard]
      rfl

/-- The byte string `"malware"` (the pattern of the repository's own
`test_boyer_moore_search`). -/
def c9Pattern : List Byte := [109, 97, 108, 119, 97, 114, 101]

/-- The byte string `"this is malware in the text"`. -/
def c9Text : List Byte :=
  [116, 104, 105, 115, 32, 105, 115, 32, 109, 97, 108, 119, 97, 114, 101, 32,
   105, 110, 32, 116, 104, 101, 32, 116, 101, 120, 116]

/-- Witness for `boyer_moore_matches_naive_search`: the search finds
`"malware"` inside `"this is malware in the text"`. -/
theorem boyer_moore_matches_naive_search_witness :
    boyerMooreSearch c9Text c9Pattern (buildBoyerMooreTable c9Pattern) = true :=
  ((boyer_moore_matches_naive_search c9Text c9Pattern).1 (by decide) (by decide)).mpr
    ⟨[116, 104, 105, 115, 32, 105, 115, 32],
     [32, 105, 110, 32, 116, 104, 101, 32, 116, 101, 120, 116], by decide⟩

end UltraSIEM
